import Mathlib

/-!
# Verification of the `shop_integration` product-feed normalization pipeline

This file gives a shallow embedding, in Lean 4, of the parts of the
repository's `products_parsing` package (and its persistence adapter) that
the specification's testable properties talk about, and proves or refutes
each property against that embedding.

Conventions of the embedding:

* Python runtime values flowing through raw records, transforms and canonical
  fields are modelled by `PyValue`.  Python `float` and `decimal.Decimal`
  are both modelled as exact rationals (`Rat`); the claims under study never
  depend on binary rounding, infinities or NaN.
* Python `dict`s coming from JSON documents always have string keys, so
  dictionaries are modelled as ordered association lists
  `List (String × PyValue)` with insertion-order update semantics.
* Fallible Python code (code that can raise) is modelled with `Except`;
  the error value records the exception's message (for `ValueError` etc.)
  or the missing attribute name (for `AttributeError`).
* Mutable Python objects that can be aliased (the `CanonicalVariant` /
  `CanonicalImage` elements of a product's lists) are modelled with an
  explicit object heap: a product's `variants` list is a list of object
  identifiers indexing into an allocation-ordered heap, so that the
  reference semantics of `list.extend([obj] * n)` is captured exactly.
-/

/-- A Python runtime value, as it appears in raw records, provider-config
JSON documents, transform inputs/outputs and canonical fields.
`float` and `decimal.Decimal` are modelled as exact rationals. -/
inductive PyValue where
  | none
  | bool (b : Bool)
  | int (n : Int)
  | float (q : Rat)
  | decimal (q : Rat)
  | str (s : String)
  | list (xs : List PyValue)
  | dict (entries : List (String × PyValue))
  deriving Repr

/-- Python `value is None`. -/
def PyValue.isNone : PyValue → Bool
  | .none => true
  | _ => false

/-- Lookup in a Python dict (string-keyed), `d.get(k)` returning `None` when
absent. -/
def dictGet (entries : List (String × PyValue)) (key : String) : PyValue :=
  match entries.lookup key with
  | Option.some v => v
  | Option.none => .none

/-- Lookup in a Python dict returning an `Option`, for `k in d` tests. -/
def dictFind (entries : List (String × PyValue)) (key : String) : Option PyValue :=
  entries.lookup key

/-- Python dict assignment `d[k] = v`: replaces the value in place if the key
exists (keeping its position), else appends the new key at the end. -/
def dictSet {α : Type} (entries : List (String × α)) (key : String) (v : α) :
    List (String × α) :=
  match entries with
  | [] => [(key, v)]
  | (k, w) :: rest =>
      if k = key then (k, v) :: rest else (k, w) :: dictSet rest key v

/-- Python `dict.update`: apply `dictSet` for every entry of `updates`. -/
def dictUpdate (base updates : List (String × PyValue)) : List (String × PyValue) :=
  updates.foldl (fun acc kv => dictSet acc kv.1 kv.2) base

/-! ## Python string helpers

These model the exact `str` methods the source uses, over ASCII text (the
domain the claims exercise).  Python's `\s`-style whitespace set is
`{space, tab, newline, carriage return, form feed, vertical tab}`. -/

/-- The characters Python's `str.strip()` removes. -/
def isPySpace (c : Char) : Bool :=
  c = ' ' || c = '\t' || c = '\n' || c = '\x0d' || c = '\x0b' || c = '\x0c'

/-- Python `str.strip()`. -/
def pyStrip (s : String) : String :=
  String.mk (((s.data.dropWhile isPySpace).reverse.dropWhile isPySpace).reverse)

/-- Python `s.replace(",", "")`: removes every comma. -/
def removeCommas (s : String) : String :=
  String.mk (s.data.filter (fun c => c ≠ ','))

/-- Python `str.lower()` (ASCII). -/
def pyLower (s : String) : String :=
  String.mk (s.data.map Char.toLower)

/-- Python `str.upper()` (ASCII). -/
def pyUpper (s : String) : String :=
  String.mk (s.data.map Char.toUpper)

/-- Python `path.split(".")`, structurally (`"" → [""]`, `"a.b" → ["a","b"]`,
`"a." → ["a",""]`). -/
def splitDotGo : List Char → List Char → List String
  | [], acc => [String.mk acc.reverse]
  | c :: rest, acc =>
      if c = '.' then String.mk acc.reverse :: splitDotGo rest []
      else splitDotGo rest (c :: acc)

/-- Python `s.split(".")`. -/
def pySplitDot (s : String) : List String :=
  splitDotGo s.data []

/-- Digits of a numeral string, most significant first, as a natural. -/
def digitsVal (cs : List Char) : Nat :=
  cs.foldl (fun acc c => acc * 10 + (c.toNat - '0'.toNat)) 0

/-- Truncation toward zero of a rational, as Python `int(float)` performs
(`Int.tdiv` is division truncating toward zero, and a `Rat` is stored in
lowest terms, so this is exact). -/
def truncToZero (q : Rat) : Int :=
  q.num.tdiv (q.den : Int)

/-- The rational `m * 10 ^ p` (for `p` a possibly negative power of ten),
built with `mkRat` and integer arithmetic only. -/
def ratScale (m : Int) (p : Int) : Rat :=
  if 0 ≤ p then mkRat (m * ((10 ^ p.toNat : Nat) : Int)) 1
  else mkRat m (10 ^ (-p).toNat)

/-- Parse an optional sign, returning the sign factor and the rest. -/
def spanSign : List Char → Int × List Char
  | '+' :: rest => (1, rest)
  | '-' :: rest => (-1, rest)
  | cs => (1, cs)

/-- Parse the optional exponent suffix `(e|E) [sign] digits` of a float
literal (an empty remainder means exponent 0). -/
def parseExpSuffix : List Char → Option Int
  | [] => some 0
  | 'e' :: es' =>
      let (esign, ds) := spanSign es'
      if ds ≠ [] ∧ ds.all Char.isDigit then some (esign * (digitsVal ds : Int))
      else Option.none
  | 'E' :: es' =>
      let (esign, ds) := spanSign es'
      if ds ≠ [] ∧ ds.all Char.isDigit then some (esign * (digitsVal ds : Int))
      else Option.none
  | _ => Option.none

/-- Python `float(s)` on an already-stripped string: an optional sign, a
mantissa `digits [. digits] | . digits`, and an optional exponent
`(e|E) [sign] digits`.  (Digit-group underscores and the `inf`/`nan`
spellings are outside the domain the claims exercise and parse as failures
here.)  Returns the exact rational value of the decimal literal. -/
def pyFloatOfString (s : String) : Option Rat :=
  let (sign, cs) := spanSign s.data
  let intPart := cs.takeWhile Char.isDigit
  let rest := cs.dropWhile Char.isDigit
  let mantissa : Option (Nat × Nat × List Char) :=
    match rest with
    | '.' :: fs =>
        let fracPart := fs.takeWhile Char.isDigit
        let rest' := fs.dropWhile Char.isDigit
        if intPart = [] ∧ fracPart = [] then Option.none
        else
          some (digitsVal intPart * 10 ^ fracPart.length + digitsVal fracPart,
                fracPart.length, rest')
    | _ =>
        if intPart = [] then Option.none
        else some (digitsVal intPart, 0, rest)
  match mantissa with
  | Option.none => Option.none
  | some (mant, fracLen, after) =>
      match parseExpSuffix after with
      | Option.none => Option.none
      | some e => some (ratScale (sign * (mant : Int)) (e - (fracLen : Int)))

/-- Python `int(s)` on a string (used by `_parse_index`): strips whitespace,
then an optional sign and at least one digit. -/
def pyIntOfString (s : String) : Option Int :=
  let (sign, cs) := spanSign (pyStrip s).data
  if cs ≠ [] ∧ cs.all Char.isDigit then some (sign * (digitsVal cs : Int))
  else Option.none

/-! ## Transform registry and built-in transforms
(`products_parsing/transforms/core.py`, `transforms/registry.py`)

Each transform is a function from a value and a params dict to a value,
raising (modelled as `Except.error message`) on input it cannot handle. -/

/-- `trim` (core.py lines 8-14). -/
def trim (value : PyValue) (_params : List (String × PyValue)) :
    Except String PyValue :=
  match value with
  | .none => .ok .none
  | .str s => .ok (.str (pyStrip s))
  | _ => .error ("trim expects a string")

/-- `upper` (core.py lines 17-23). -/
def upper (value : PyValue) (_params : List (String × PyValue)) :
    Except String PyValue :=
  match value with
  | .none => .ok .none
  | .str s => .ok (.str (pyUpper s))
  | _ => .error ("upper expects a string")

/-- First match of the regex `-?\d+(?:\.\d+)?` in a character list:
scan left to right for an optional minus sign followed by digits,
optionally followed by a dot and more digits. -/
def firstNumberMatch : List Char → Option (Int × Nat × Nat)
  | [] => Option.none
  | c :: rest =>
      let tryHere : Option (Int × Nat × Nat) :=
        let (sign, ds) :=
          if c = '-' then ((-1 : Int), rest) else (1, c :: rest)
        let intPart := ds.takeWhile Char.isDigit
        if intPart = [] then Option.none
        else
          match ds.dropWhile Char.isDigit with
          | '.' :: fs =>
              let fracPart := fs.takeWhile Char.isDigit
              if fracPart = [] then some (sign, digitsVal intPart, 0)
              else some (sign, digitsVal (intPart ++ fracPart), fracPart.length)
          | _ => some (sign, digitsVal intPart, 0)
      match tryHere with
      | some r => some r
      | Option.none => firstNumberMatch rest

/-- `parse_price` (core.py lines 26-45): numeric input becomes a `Decimal`
of the same value; string input is comma-stripped, trimmed, and the first
signed decimal number in it is extracted; no match raises. -/
def parse_price (value : PyValue) (_params : List (String × PyValue)) :
    Except String PyValue :=
  match value with
  | .none => .ok .none
  | .int n => .ok (.decimal (mkRat n 1))
  | .float q => .ok (.decimal q)
  | .decimal q => .ok (.decimal q)
  | .str s =>
      match firstNumberMatch (pyStrip (removeCommas s)).data with
      | some (sign, mant, fracLen) =>
          .ok (.decimal (ratScale (sign * (mant : Int)) (-(fracLen : Int))))
      | Option.none => .error ("parse_price could not parse a number")
  | _ => .error ("parse_price expects a string or numeric value")

/-- `parse_bool` (core.py lines 48-63). -/
def parse_bool (value : PyValue) (_params : List (String × PyValue)) :
    Except String PyValue :=
  match value with
  | .none => .ok .none
  | .bool b => .ok (.bool b)
  | .int n => .ok (.bool (n ≠ 0))
  | .float q => .ok (.bool (truncToZero q ≠ 0))
  | .str s =>
      let cleaned := pyLower (pyStrip s)
      if cleaned ∈ ["true", "t", "yes", "y", "1"] then .ok (.bool true)
      else if cleaned ∈ ["false", "f", "no", "n", "0"] then .ok (.bool false)
      else .error ("parse_bool expects a truthy or falsy value")
  | _ => .error ("parse_bool expects a string, number, or boolean")

/-- `parse_int` (core.py lines 66-84): bool is rejected before the int
passthrough; float truncates toward zero; a string is stripped of
whitespace and commas, the empty result is `None`, anything else goes
through `int(float(cleaned))`. -/
def parse_int (value : PyValue) (_params : List (String × PyValue)) :
    Except String PyValue :=
  match value with
  | .none => .ok .none
  | .bool _ => .error ("parse_int expects a numeric value")
  | .int n => .ok (.int n)
  | .float q => .ok (.int (truncToZero q))
  | .str s =>
      let cleaned := removeCommas (pyStrip s)
      if cleaned = "" then .ok .none
      else
        match pyFloatOfString cleaned with
        | some q => .ok (.int (truncToZero q))
        | Option.none => .error ("parse_int expects a numeric value")
  | _ => .error ("parse_int expects a string or numeric value")

/-- `map_category` (core.py lines 87-100): requires a `mapping` dict param;
unmapped string values pass through unchanged. -/
def map_category (value : PyValue) (params : List (String × PyValue)) :
    Except String PyValue :=
  match value with
  | .none => .ok .none
  | .str s =>
      match dictFind params "mapping" with
      | Option.none => .error ("map_category requires a mapping param")
      | some (.dict m) =>
          match m.lookup s with
          | some v => .ok v
          | Option.none => .ok (.str s)
      | some _ => .error ("map_category mapping must be a dict")
  | _ => .error ("map_category expects a string")

/-- `apply_transform` (registry.py): dispatch by name over the transforms
`core.py` registers at import time; an unknown name raises `KeyError`. -/
def apply_transform (name : String) (value : PyValue)
    (params : List (String × PyValue)) : Except String PyValue :=
  if name = "trim" then trim value params
  else if name = "upper" then upper value params
  else if name = "parse_price" then parse_price value params
  else if name = "parse_bool" then parse_bool value params
  else if name = "parse_int" then parse_int value params
  else if name = "map_category" then map_category value params
  else .error ("Unknown transform: " ++ name)

/-! ## Provider config loader (`products_parsing/config/loader.py`)

JSON documents are `PyValue`s (JSON object keys are always strings, so the
`"Keys must be strings"` branch of `validate_provider_config` is
unreachable in this embedding and is modelled as collecting no issue). -/

/-- `ConfigValidationIssue` (loader.py lines 7-10). -/
structure ConfigValidationIssue where
  path : String
  message : String
  deriving Repr, DecidableEq

/-- `TransformSpec` (loader.py lines 13-16). -/
structure TransformSpec where
  name : String
  params : List (String × PyValue)
  deriving Repr

/-- `MappingRule` (loader.py lines 19-24).  An absent `default` is the
Python `None` default, i.e. `PyValue.none`. -/
structure MappingRule where
  source : String
  destination : String
  transforms : List TransformSpec
  default : PyValue
  deriving Repr

/-- `ProviderConfig` (loader.py lines 27-32).  Its dataclass fields are
exactly these four; in particular it has no `schema_version` attribute. -/
structure ProviderConfig where
  provider_id : String
  mappings : List MappingRule
  error_policy : String
  transform_params : List (String × List (String × PyValue))
  deriving Repr

/-- Is a value a non-blank Python string?  (`isinstance(x, str) and
x.strip()`). -/
def isNonBlankStr : PyValue → Bool
  | .str s => pyStrip s ≠ ""
  | _ => false

/-- `_validate_transform` (loader.py lines 167-186). -/
def _validate_transform (t : PyValue) (path : String) : List ConfigValidationIssue :=
  match t with
  | .dict td =>
      (if isNonBlankStr (dictGet td "name") then []
       else [⟨path ++ ".name", "Required"⟩]) ++
      (match dictFind td "params" with
       | Option.none => []
       | some .none => []
       | some (.dict _) => []
       | some _ => [⟨path ++ ".params", "Expected object"⟩])
  | _ => [⟨path, "Expected object"⟩]

/-- `_validate_mapping_rule` (loader.py lines 122-164). -/
def _validate_mapping_rule (rv : PyValue) (idx : Nat) : List ConfigValidationIssue :=
  let pathPfx := "mappings[" ++ toString idx ++ "]"
  match rv with
  | .dict r =>
      let sourceIssues :=
        if isNonBlankStr (dictGet r "source") then []
        else [(⟨pathPfx ++ ".source", "Required"⟩ : ConfigValidationIssue)]
      let destIssues :=
        if isNonBlankStr (dictGet r "destination") then []
        else [(⟨pathPfx ++ ".destination", "Required"⟩ : ConfigValidationIssue)]
      let transformIssues :=
        match dictFind r "transforms" with
        | Option.none => []          -- rule.get("transforms", []) is a list
        | some .none => []           -- explicit null: early return, accepted
        | some (.list ts) =>
            (ts.enum.map (fun it =>
              _validate_transform it.2
                (pathPfx ++ ".transforms[" ++ toString it.1 ++ "]"))).flatten
        | some _ => [(⟨pathPfx ++ ".transforms", "Expected list"⟩ : ConfigValidationIssue)]
      sourceIssues ++ destIssues ++ transformIssues
  | _ => [⟨pathPfx, "Expected object"⟩]

/-- `validate_provider_config` (loader.py lines 66-119).  Note the early
`return issues` when `mappings` is absent or not a list: the
`transform_params` checks are skipped in that case. -/
def validate_provider_config (data : PyValue) : List ConfigValidationIssue :=
  match data with
  | .dict entries =>
      let providerIssues :=
        if isNonBlankStr (dictGet entries "provider_id") then []
        else [(⟨"provider_id", "Required"⟩ : ConfigValidationIssue)]
      let policyIssues :=
        match dictFind entries "error_policy" with
        | Option.none => []          -- data.get default "continue" is valid
        | some (.str s) =>
            if s = "continue" ∨ s = "fail" then []
            else [(⟨"error_policy", "Expected 'continue' or 'fail'"⟩ : ConfigValidationIssue)]
        | some _ => [(⟨"error_policy", "Expected 'continue' or 'fail'"⟩ : ConfigValidationIssue)]
      match dictFind entries "mappings" with
      | some (.list rules) =>
          let mappingIssues :=
            (rules.enum.map (fun ir => _validate_mapping_rule ir.2 ir.1)).flatten
          let tparamIssues :=
            match dictFind entries "transform_params" with
            | Option.none => []      -- default {} is a dict of dicts
            | some (.dict d) =>
                -- JSON keys are strings, so only the value check can fire.
                (d.map (fun kv =>
                  match kv.2 with
                  | .dict _ => ([] : List ConfigValidationIssue)
                  | _ => [⟨"transform_params." ++ kv.1, "Expected object"⟩])).flatten
            | some _ => [(⟨"transform_params", "Expected object"⟩ : ConfigValidationIssue)]
          providerIssues ++ policyIssues ++ mappingIssues ++ tparamIssues
      | _ =>
          -- `mappings` absent or not a list: issue plus early return.
          providerIssues ++ policyIssues ++
            [(⟨"mappings", "Expected list"⟩ : ConfigValidationIssue)]
  | _ => [⟨"$", "Expected object"⟩]

/-- `_format_issues` (loader.py lines 206-207). -/
def _format_issues (issues : List ConfigValidationIssue) : String :=
  String.intercalate "; " (issues.map (fun i => i.path ++ ": " ++ i.message))

/-- One entry of `_parse_transforms` (loader.py lines 189-194): builds a
`TransformSpec` from a validated transform object (`params` defaults to the
empty dict through the falsy-coalescing `or {}`).  The mismatch fallbacks
are unreachable on documents that passed validation. -/
def parseTransformSpec (t : PyValue) : Except String TransformSpec :=
  match t with
  | .dict td =>
      match dictGet td "name" with
      | .str n =>
          .ok ⟨n, (match dictFind td "params" with
                   | some (.dict d) => d
                   | _ => [])⟩
      | _ => .error ("internal: transform name is not a string")
  | _ => .error ("internal: transform entry is not an object")

/-- The `transforms` field of one mapping rule as the loader reads it:
`_parse_transforms(rule.get("transforms", []))`.  Validation accepts an
explicit JSON `null` here (loader.py lines 148-149), but iterating `None`
in `_parse_transforms` then raises `TypeError`. -/
def parseTransformsField (r : List (String × PyValue)) :
    Except String (List TransformSpec) :=
  match dictFind r "transforms" with
  | Option.none => .ok []
  | some .none => .error ("TypeError: NoneType object is not iterable")
  | some (.list ts) => ts.mapM parseTransformSpec
  | some _ => .error ("internal: transforms is not a list")

/-- One `MappingRule` as built by `load_provider_config_from_dict`
(loader.py lines 48-56).  The mismatch fallbacks are unreachable on
validated documents. -/
def parseMappingRule (rv : PyValue) : Except String MappingRule :=
  match rv with
  | .dict r =>
      match dictGet r "source", dictGet r "destination" with
      | .str s, .str d =>
          match parseTransformsField r with
          | .error e => .error e
          | .ok ts => .ok ⟨s, d, ts, dictGet r "default"⟩
      | _, _ => .error ("internal: rule fields are not strings")
  | _ => .error ("internal: rule is not an object")

/-- `load_provider_config_from_dict` (loader.py lines 40-63): validate,
raise a single `ValueError` carrying every accumulated issue if any,
otherwise construct the `ProviderConfig`. -/
def load_provider_config_from_dict (data : PyValue) (source_path : String) :
    Except String ProviderConfig :=
  let issues := validate_provider_config data
  if issues = [] then
    match data with
    | .dict entries =>
        match dictGet entries "mappings" with
        | .list rules =>
            match rules.mapM parseMappingRule with
            | .error e => .error e
            | .ok ms =>
                .ok { provider_id :=
                        (match dictGet entries "provider_id" with
                         | .str s => s
                         | _ => ""),
                      mappings := ms,
                      error_policy :=
                        (match dictFind entries "error_policy" with
                         | some (.str s) => s
                         | _ => "continue"),
                      transform_params :=
                        (match dictFind entries "transform_params" with
                         | some (.dict d) =>
                             d.map (fun kv =>
                               (kv.1, match kv.2 with
                                      | .dict dd => dd
                                      | _ => []))
                         | _ => []) }
        | _ => .error ("internal: mappings is not a list")
    | _ => .error ("internal: config is not an object")
  else .error ("Invalid provider config (" ++ source_path ++ "): " ++
               _format_issues issues)

/-! ## Canonical schema v2 objects with reference semantics
(`products_parsing/canonical/schema_v2.py`)

`CanonicalVariant` / `CanonicalImage` instances are mutable Python objects
that the engine can alias (`list.extend([obj] * n)` inserts n references
to one object).  A product therefore carries an allocation-ordered heap of
objects, and its `variants` / `images` lists hold object identifiers
(indices into that heap).  An object is its instance `__dict__`: an
ordered map from attribute name to value, initialised with the dataclass
fields. -/

/-- A `CanonicalVariant` instance: its `__dict__`. -/
structure VariantObj where
  attrs : List (String × PyValue)
  deriving Repr

/-- A `CanonicalImage` instance: its `__dict__`. -/
structure ImageObj where
  attrs : List (String × PyValue)
  deriving Repr

/-- `CanonicalVariant()` (schema_v2.py lines 15-39): every field `None`
except `metadata`, a fresh empty dict. -/
def newVariantObj : VariantObj :=
  ⟨[("supplier_sku", .none), ("barcode", .none), ("price", .none),
    ("compare_at_price", .none), ("option1", .none), ("option2", .none),
    ("option3", .none), ("title", .none), ("grams", .none),
    ("position", .none), ("taxable", .none), ("requires_shipping", .none),
    ("inventory_policy", .none), ("inventory_management", .none),
    ("sku", .none), ("tracked", .none), ("cost", .none),
    ("quantity", .none), ("metadata", .dict [])]⟩

/-- `CanonicalImage()` (schema_v2.py lines 6-12). -/
def newImageObj : ImageObj :=
  ⟨[("src", .none), ("position", .none), ("width", .none),
    ("height", .none), ("alt", .none)]⟩

/-- A `CanonicalProduct` instance (schema_v2.py lines 42-54): scalar
attributes as an ordered `__dict__`, plus the two reference lists with
their heaps and the product-level metadata dict. -/
structure CanonicalProductV2 where
  attrs : List (String × PyValue)
  variants : List Nat
  variantHeap : List VariantObj
  images : List Nat
  imageHeap : List ImageObj
  metadata : List (String × PyValue)
  deriving Repr

/-- `CanonicalProduct()`: the six scalar fields default to `None`, the
lists and metadata are fresh and empty. -/
def newProductV2 : CanonicalProductV2 :=
  ⟨[("title", .none), ("description", .none), ("vendor", .none),
    ("product_type", .none), ("handle", .none), ("tags", .none)],
   [], [], [], [], []⟩

/-- In-place update of the i-th element of a list (object mutation through
a reference). -/
def listModify (xs : List α) (i : Nat) (f : α → α) : List α :=
  match xs, i with
  | [], _ => []
  | x :: rest, 0 => f x :: rest
  | x :: rest, Nat.succ j => x :: listModify rest j f

/-- Python list indexing `xs[i]`: non-negative indices from the front,
negative indices wrap from the back, anything out of range raises
`IndexError` (modelled as `Option.none`). -/
def pyListIndex (xs : List α) (i : Int) : Option α :=
  if 0 ≤ i then xs.get? i.toNat
  else
    let j := (xs.length : Int) + i
    if 0 ≤ j then xs.get? j.toNat else Option.none

/-- `setattr` on a variant object. -/
def VariantObj.setattr (v : VariantObj) (name : String) (value : PyValue) :
    VariantObj :=
  ⟨dictSet v.attrs name value⟩

/-- `variant.metadata[key] = value`: mutate the metadata dict held in the
object (always a dict here: the engine routes every `metadata` destination
segment into this dict path, never through a plain `setattr`). -/
def VariantObj.metaSet (v : VariantObj) (key : String) (value : PyValue) :
    VariantObj :=
  ⟨dictSet v.attrs "metadata"
    (match dictGet v.attrs "metadata" with
     | .dict d => .dict (dictSet d key value)
     | _ => .dict [(key, value)])⟩

/-- `setattr` on an image object. -/
def ImageObj.setattr (im : ImageObj) (name : String) (value : PyValue) :
    ImageObj :=
  ⟨dictSet im.attrs name value⟩

/-! ## Parser engine (`products_parsing/parser/engine.py`)

`parse_records` is duck-typed in its `config` argument: besides the four
`ProviderConfig` fields it reads `config.schema_version` (engine.py lines
16 and 35), an attribute the loader never provides (see the pipeline
section below); the repository's own `test_parser_v2.py` calls it with a
config carrying `schema_version="v2"`.  `EngineConfig` is that duck type,
specialised to the v2 schema — the flattened canonical schema the
specification follows; the v1 branches of `_assign_value`, `_new_product`
etc. are the superseded draft and are not exercised by any claim. -/

/-- The attributes of `config` the engine reads, for `schema_version="v2"`. -/
structure EngineConfig where
  provider_id : String
  mappings : List MappingRule
  error_policy : String
  transform_params : List (String × List (String × PyValue))
  deriving Repr

/-- `ParseError` (parser/errors.py). -/
structure ParseError where
  provider_id : String
  record_index : Nat
  source : Option String
  destination : Option String
  transform : Option String
  message : String
  deriving Repr, DecidableEq

/-- `_extract_value` (engine.py lines 106-114): dot-split walk into the raw
record; a non-dict intermediate or missing key yields `None`. -/
def extractValueGo : List String → PyValue → PyValue
  | [], cur => cur
  | part :: rest, cur =>
      match cur with
      | .dict d =>
          match dictFind d part with
          | Option.none => .none
          | some v => extractValueGo rest v
      | _ => .none

/-- `_extract_value` on a raw record. -/
def _extract_value (record : List (String × PyValue)) (path : String) : PyValue :=
  extractValueGo (pySplitDot path) (.dict record)

/-- `_merge_transform_params` (engine.py lines 117-121): config-level params
for the transform name, overridden by the rule-level params. -/
def _merge_transform_params (t : TransformSpec) (config : EngineConfig) :
    List (String × PyValue) :=
  dictUpdate ((config.transform_params.lookup t.name).getD []) t.params

/-- `_parse_index` (engine.py lines 257-261): `int(raw)`, `None` on
`ValueError`. -/
def _parse_index (raw : String) : Option Int :=
  pyIntOfString raw

/-- `_assign_variant_value_v2` (engine.py lines 216-234).  Note the
extension `product.variants.extend([_new_variant("v2")] * n)`: ONE new
variant object is allocated and n references to it are appended. -/
def _assign_variant_value_v2 (p : CanonicalProductV2) (parts : List String)
    (value : PyValue) : Except String CanonicalProductV2 :=
  match parts with
  | [] => .ok p
  | idxRaw :: rest =>
      match _parse_index idxRaw with
      | Option.none => .ok p
      | some i =>
          let len : Int := (p.variants.length : Int)
          let p' :=
            if len ≤ i then
              { p with
                variantHeap := p.variantHeap ++ [newVariantObj],
                variants := p.variants ++
                  List.replicate (i - len + 1).toNat p.variantHeap.length }
            else p
          match pyListIndex p'.variants i with
          | Option.none => .error ("IndexError: list index out of range")
          | some objId =>
              match rest with
              | [] => .ok p'
              | fieldName :: rest2 =>
                  if fieldName = "metadata" then
                    match rest2 with
                    | [] => .ok p'
                    | key :: _ =>
                        .ok { p' with
                          variantHeap := listModify p'.variantHeap objId
                            (fun v => v.metaSet key value) }
                  else
                    .ok { p' with
                      variantHeap := listModify p'.variantHeap objId
                        (fun v => v.setattr fieldName value) }

/-- `_assign_images_value_v2` (engine.py lines 237-248), with the same
aliasing `extend`. -/
def _assign_images_value_v2 (p : CanonicalProductV2) (parts : List String)
    (value : PyValue) : Except String CanonicalProductV2 :=
  match parts with
  | [] => .ok p
  | idxRaw :: rest =>
      match _parse_index idxRaw with
      | Option.none => .ok p
      | some i =>
          let len : Int := (p.images.length : Int)
          let p' :=
            if len ≤ i then
              { p with
                imageHeap := p.imageHeap ++ [newImageObj],
                images := p.images ++
                  List.replicate (i - len + 1).toNat p.imageHeap.length }
            else p
          match pyListIndex p'.images i with
          | Option.none => .error ("IndexError: list index out of range")
          | some objId =>
              match rest with
              | [] => .ok p'
              | fieldName :: _ =>
                  .ok { p' with
                    imageHeap := listModify p'.imageHeap objId
                      (fun im => im.setattr fieldName value) }

/-- `_assign_metadata_value` (engine.py lines 251-254). -/
def _assign_metadata_value (p : CanonicalProductV2) (parts : List String)
    (value : PyValue) : CanonicalProductV2 :=
  match parts with
  | [] => p
  | key :: _ => { p with metadata := dictSet p.metadata key value }

/-- `_assign_value_v2` (engine.py lines 153-166): route on the first
destination segment; any other first segment is a plain
`setattr(product, parts[0], value)` (the remaining segments are ignored
by the source). -/
def _assign_value_v2 (p : CanonicalProductV2) (parts : List String)
    (value : PyValue) : Except String CanonicalProductV2 :=
  match parts with
  | [] => .ok p
  | first :: rest =>
      if first = "variants" then _assign_variant_value_v2 p rest value
      else if first = "images" then _assign_images_value_v2 p rest value
      else if first = "metadata" then .ok (_assign_metadata_value p rest value)
      else .ok { p with attrs := dictSet p.attrs first value }

/-- `_assign_value` (engine.py lines 124-131) for `schema_version="v2"`. -/
def _assign_value (p : CanonicalProductV2) (destination : String)
    (value : PyValue) : Except String CanonicalProductV2 :=
  _assign_value_v2 p (pySplitDot destination) value

/-- `_apply_transforms` (engine.py lines 54-82) without its policy
branching: apply the chain in order; if some transform raises, return the
`ParseError` built at that transform (the caller records it and, under
`fail`, re-raises the cause — see `applyRule`). -/
def applyTransformsList (config : EngineConfig) (record_index : Nat)
    (rule : MappingRule) : List TransformSpec → PyValue →
    Except ParseError PyValue
  | [], current => .ok current
  | t :: rest, current =>
      match apply_transform t.name current (_merge_transform_params t config) with
      | .error msg =>
          .error { provider_id := config.provider_id,
                   record_index := record_index,
                   source := some rule.source,
                   destination := some rule.destination,
                   transform := some t.name,
                   message := msg }
      | .ok v => applyTransformsList config record_index rule rest v

/-- `_apply_transforms` over a whole rule. -/
def _apply_transforms (value : PyValue) (rule : MappingRule)
    (config : EngineConfig) (record_index : Nat) : Except ParseError PyValue :=
  applyTransformsList config record_index rule rule.transforms value

/-- The body of the per-rule `try` block of `parse_records` (engine.py
lines 17-50) on the running `(product, report)` state.  The `Except.error`
result carries the final report and the re-raised message, i.e. an
exception escaping `parse_records`. -/
def applyRule (config : EngineConfig) (record_index : Nat)
    (record : List (String × PyValue))
    (state : CanonicalProductV2 × List ParseError) (rule : MappingRule) :
    Except (List ParseError × String) (CanonicalProductV2 × List ParseError) :=
  let product := state.1
  let report := state.2
  let extracted := _extract_value record rule.source
  let value := if extracted.isNone then rule.default else extracted
  if value.isNone then .ok (product, report)
  else
    match _apply_transforms value rule config record_index with
    | .error err =>
        if config.error_policy = "fail" then
          -- `ParseFailure` path: record the error, then re-raise the cause.
          .error (report ++ [err], err.message)
        else
          -- recorded by `_apply_transforms`, which returns None: rule
          -- abandoned, destination untouched.
          .ok (product, report ++ [err])
    | .ok v =>
        if v.isNone then .ok (product, report)
        else
          match _assign_value product rule.destination v with
          | .ok p2 => .ok (p2, report)
          | .error msg =>
              -- generic `except Exception` handler (engine.py lines 39-50)
              let err : ParseError :=
                { provider_id := config.provider_id,
                  record_index := record_index,
                  source := some rule.source,
                  destination := some rule.destination,
                  transform := Option.none,
                  message := msg }
              if config.error_policy = "fail" then .error (report ++ [err], msg)
              else .ok (product, report ++ [err])

/-- The rule loop of `parse_records` for one record. -/
def processRules (config : EngineConfig) (record_index : Nat)
    (record : List (String × PyValue)) :
    List MappingRule → (CanonicalProductV2 × List ParseError) →
    Except (List ParseError × String) (CanonicalProductV2 × List ParseError)
  | [], st => .ok st
  | rule :: rest, st =>
      match applyRule config record_index record st rule with
      | .error e => .error e
      | .ok st2 => processRules config record_index record rest st2

/-- The record loop of `parse_records`, from a given record index. -/
def parseRecordsGo (config : EngineConfig) :
    List (List (String × PyValue)) → Nat → List ParseError →
    Except (List ParseError × String) (List CanonicalProductV2 × List ParseError)
  | [], _, report => .ok ([], report)
  | r :: rs, i, report =>
      match processRules config i r config.mappings (newProductV2, report) with
      | .error e => .error e
      | .ok (product, report2) =>
          match parseRecordsGo config rs (i + 1) report2 with
          | .error e => .error e
          | .ok (products, reportF) => .ok (product :: products, reportF)

/-- `parse_records` (engine.py lines 8-51) with `schema_version="v2"`,
run to completion (the Python generator is consumed exactly once, by the
persistence stage): the produced canonical products and the final report,
or the escaping exception (with the report as it stood). -/
def parse_records (records : List (List (String × PyValue)))
    (config : EngineConfig) (report : List ParseError) :
    Except (List ParseError × String) (List CanonicalProductV2 × List ParseError) :=
  parseRecordsGo config records 0 report

/-! ## Canonical schema validator (`products_parsing/services/validator.py`)

The validator walks the same v2 products.  Its per-variant type checks read
attributes directly (`variant.unit_cost`, …): a read of an attribute the
object does not carry raises `AttributeError`, which escapes `validate`. -/

/-- A raised Python exception, as observable by the caller. -/
inductive PyExc where
  | attributeError (name : String)
  deriving Repr, DecidableEq

/-- `ValidationIssue` (validator.py lines 12-15). -/
structure ValidationIssue where
  path : String
  message : String
  deriving Repr, DecidableEq

/-- The value `_get_nested_value` is currently holding while walking a
path: the product itself, one of its reference lists, one referenced
object, or a plain value. -/
inductive NestedCursor where
  | product
  | variantList
  | variantObj (id : Nat)
  | imageList
  | imageObj (id : Nat)
  | val (v : PyValue)
  deriving Repr

/-- `getattr(product, name, None)` on a canonical v2 product. -/
def productGetattrDefault (p : CanonicalProductV2) (name : String) : NestedCursor :=
  if name = "variants" then .variantList
  else if name = "images" then .imageList
  else if name = "metadata" then .val (.dict p.metadata)
  else .val (dictGet p.attrs name)

/-- One step of `_get_nested_value` (validator.py lines 48-66): `None`
propagates, lists are indexed (with explicit bounds checks returning
`None`), dicts are `get`-ed, everything else is `getattr` with a `None`
default.  (Plain scalar values have no data attributes, so `getattr` on
them yields the default.) -/
def nestedStep (p : CanonicalProductV2) (cur : NestedCursor) (part : String) :
    NestedCursor :=
  match cur with
  | .product => productGetattrDefault p part
  | .variantList =>
      match pyIntOfString part with
      | Option.none => .val .none
      | some i =>
          if 0 ≤ i ∧ i < (p.variants.length : Int) then
            match p.variants.get? i.toNat with
            | some id => .variantObj id
            | Option.none => .val .none
          else .val .none
  | .variantObj id =>
      match p.variantHeap.get? id with
      | some v => .val (dictGet v.attrs part)
      | Option.none => .val .none
  | .imageList =>
      match pyIntOfString part with
      | Option.none => .val .none
      | some i =>
          if 0 ≤ i ∧ i < (p.images.length : Int) then
            match p.images.get? i.toNat with
            | some id => .imageObj id
            | Option.none => .val .none
          else .val .none
  | .imageObj id =>
      match p.imageHeap.get? id with
      | some im => .val (dictGet im.attrs part)
      | Option.none => .val .none
  | .val v =>
      match v with
      | .none => .val .none
      | .list xs =>
          match pyIntOfString part with
          | Option.none => .val .none
          | some i =>
              if 0 ≤ i ∧ i < (xs.length : Int) then
                match xs.get? i.toNat with
                | some x => .val x
                | Option.none => .val .none
              else .val .none
      | .dict d => .val (dictGet d part)
      | _ => .val .none

/-- `_get_nested_value` (validator.py lines 48-66). -/
def _get_nested_value (p : CanonicalProductV2) (path : String) : NestedCursor :=
  (pySplitDot path).foldl (nestedStep p) .product

/-- `_is_missing` (validator.py lines 69-74): `None` or a blank string. -/
def _is_missing : NestedCursor → Bool
  | .val .none => true
  | .val (.str s) => pyStrip s = ""
  | _ => false

/-- `_validate_optional_string` (validator.py lines 81-85). -/
def _validate_optional_string (v : PyValue) (path : String) : List ValidationIssue :=
  match v with
  | .none => []
  | .str _ => []
  | _ => [⟨path, "Expected string"⟩]

/-- `_validate_optional_number` (validator.py lines 88-92): ints, floats
and Decimals are `numbers.Number`; bools are excluded. -/
def _validate_optional_number (v : PyValue) (path : String) : List ValidationIssue :=
  match v with
  | .none => []
  | .int _ => []
  | .float _ => []
  | .decimal _ => []
  | _ => [⟨path, "Expected number"⟩]

/-- `_validate_optional_int` (validator.py lines 95-99): bools excluded. -/
def _validate_optional_int (v : PyValue) (path : String) : List ValidationIssue :=
  match v with
  | .none => []
  | .int _ => []
  | _ => [⟨path, "Expected integer"⟩]

/-- `_validate_optional_bool` (validator.py lines 102-106). -/
def _validate_optional_bool (v : PyValue) (path : String) : List ValidationIssue :=
  match v with
  | .none => []
  | .bool _ => []
  | _ => [⟨path, "Expected boolean"⟩]

/-- `_validate_metadata` (validator.py lines 192-204): `None` passes, a
non-dict is flagged; keys are strings by construction here, so the
key-type branch collects nothing. -/
def _validate_metadata (v : PyValue) (path : String) : List ValidationIssue :=
  match v with
  | .none => []
  | .dict _ => []
  | _ => [⟨path, "Expected dict"⟩]

/-- A strict attribute read on a variant object (`variant.name` with no
default): raises `AttributeError` when the instance does not carry the
attribute. -/
def variantAttrStrict (v : VariantObj) (name : String) : Except PyExc PyValue :=
  match dictFind v.attrs name with
  | some x => .ok x
  | Option.none => .error (.attributeError name)

/-- A strict attribute read on an image object. -/
def imageAttrStrict (im : ImageObj) (name : String) : Except PyExc PyValue :=
  match dictFind im.attrs name with
  | some x => .ok x
  | Option.none => .error (.attributeError name)

/-- The per-variant body of `_validate_variants` (validator.py lines
134-189): the declared schema fields are type-checked in source order,
then the trailing reads of `unit_cost`, `msrp` and `map` — attributes no
`CanonicalVariant` carries unless a mapping explicitly set them. -/
def validateVariantObj (v : VariantObj) (idx : Nat) :
    Except PyExc (List ValidationIssue) := do
  let pfx := "variants[" ++ toString idx ++ "]"
  let a1 ← variantAttrStrict v "supplier_sku"
  let a2 ← variantAttrStrict v "barcode"
  let a3 ← variantAttrStrict v "price"
  let a4 ← variantAttrStrict v "compare_at_price"
  let a5 ← variantAttrStrict v "option1"
  let a6 ← variantAttrStrict v "option2"
  let a7 ← variantAttrStrict v "option3"
  let a8 ← variantAttrStrict v "title"
  let a9 ← variantAttrStrict v "grams"
  let a10 ← variantAttrStrict v "position"
  let a11 ← variantAttrStrict v "taxable"
  let a12 ← variantAttrStrict v "requires_shipping"
  let a13 ← variantAttrStrict v "inventory_policy"
  let a14 ← variantAttrStrict v "inventory_management"
  let a15 ← variantAttrStrict v "sku"
  let a16 ← variantAttrStrict v "tracked"
  let a17 ← variantAttrStrict v "cost"
  let a18 ← variantAttrStrict v "quantity"
  let a19 ← variantAttrStrict v "metadata"
  let a20 ← variantAttrStrict v "unit_cost"
  let a21 ← variantAttrStrict v "msrp"
  let a22 ← variantAttrStrict v "map"
  return _validate_optional_string a1 (pfx ++ ".supplier_sku") ++
    _validate_optional_string a2 (pfx ++ ".barcode") ++
    _validate_optional_number a3 (pfx ++ ".price") ++
    _validate_optional_number a4 (pfx ++ ".compare_at_price") ++
    _validate_optional_string a5 (pfx ++ ".option1") ++
    _validate_optional_string a6 (pfx ++ ".option2") ++
    _validate_optional_string a7 (pfx ++ ".option3") ++
    _validate_optional_string a8 (pfx ++ ".title") ++
    _validate_optional_int a9 (pfx ++ ".grams") ++
    _validate_optional_int a10 (pfx ++ ".position") ++
    _validate_optional_bool a11 (pfx ++ ".taxable") ++
    _validate_optional_bool a12 (pfx ++ ".requires_shipping") ++
    _validate_optional_string a13 (pfx ++ ".inventory_policy") ++
    _validate_optional_string a14 (pfx ++ ".inventory_management") ++
    _validate_optional_string a15 (pfx ++ ".sku") ++
    _validate_optional_bool a16 (pfx ++ ".tracked") ++
    _validate_optional_number a17 (pfx ++ ".cost") ++
    _validate_optional_int a18 (pfx ++ ".quantity") ++
    _validate_metadata a19 (pfx ++ ".metadata") ++
    _validate_optional_number a20 (pfx ++ ".unit_cost") ++
    _validate_optional_number a21 (pfx ++ ".msrp") ++
    _validate_optional_number a22 (pfx ++ ".map")

/-- The loop of `_validate_variants` (validator.py lines 127-189) over the
product's variant references, enumerated from `idx`.  Every element of a
canonical product's `variants` list is a `CanonicalVariant` here, so the
`isinstance` guard never fires; a dangling reference cannot occur and its
fallback is unreachable. -/
def validateVariantsGo (p : CanonicalProductV2) :
    List Nat → Nat → Except PyExc (List ValidationIssue)
  | [], _ => .ok []
  | id :: rest, idx => do
      let issues ←
        match p.variantHeap.get? id with
        | some v => validateVariantObj v idx
        | Option.none => .ok []
      let more ← validateVariantsGo p rest (idx + 1)
      return issues ++ more

/-- `_validate_variants` on a product (empty list: no iterations, no
issues, no exception). -/
def _validate_variants (p : CanonicalProductV2) : Except PyExc (List ValidationIssue) :=
  validateVariantsGo p p.variants 0

/-- The per-image body of `_validate_images` (validator.py lines 109-124). -/
def validateImageObj (im : ImageObj) (idx : Nat) :
    Except PyExc (List ValidationIssue) := do
  let pfx := "images[" ++ toString idx ++ "]"
  let a1 ← imageAttrStrict im "src"
  let a2 ← imageAttrStrict im "position"
  return _validate_optional_string a1 (pfx ++ ".src") ++
    _validate_optional_int a2 (pfx ++ ".position")

/-- The loop of `_validate_images`. -/
def validateImagesGo (p : CanonicalProductV2) :
    List Nat → Nat → Except PyExc (List ValidationIssue)
  | [], _ => .ok []
  | id :: rest, idx => do
      let issues ←
        match p.imageHeap.get? id with
        | some im => validateImageObj im idx
        | Option.none => .ok []
      let more ← validateImagesGo p rest (idx + 1)
      return issues ++ more

/-- `_validate_images` on a product. -/
def _validate_images (p : CanonicalProductV2) : Except PyExc (List ValidationIssue) :=
  validateImagesGo p p.images 0

/-- `CanonicalValidator.validate` (validator.py lines 25-45): required
fields first, then the scalar product fields, product metadata, the
variants, and the images.  An `AttributeError` raised during the variant
loop escapes, discarding the issues accumulated so far. -/
def validate (required_fields : List String) (p : CanonicalProductV2) :
    Except PyExc (List ValidationIssue) := do
  let reqIssues := required_fields.filterMap (fun fp =>
    if _is_missing (_get_nested_value p fp) then
      some (⟨fp, "Missing required value"⟩ : ValidationIssue)
    else Option.none)
  let scalarIssues :=
    _validate_optional_string (dictGet p.attrs "title") "title" ++
    _validate_optional_string (dictGet p.attrs "description") "description" ++
    _validate_optional_string (dictGet p.attrs "vendor") "vendor" ++
    _validate_optional_string (dictGet p.attrs "product_type") "product_type" ++
    _validate_optional_string (dictGet p.attrs "handle") "handle" ++
    _validate_optional_string (dictGet p.attrs "tags") "tags" ++
    _validate_metadata (.dict p.metadata) "metadata"
  let varIssues ← _validate_variants p
  let imgIssues ← _validate_images p
  return reqIssues ++ scalarIssues ++ varIssues ++ imgIssues

/-! ## CSV record loading (`products_parsing/pipeline.py` lines 37-92) -/

/-- Strip the UTF-8 BOM prefix of a header (`header.lstrip("﻿")`,
applied when the header starts with a BOM — equivalently, drop every
leading BOM character). -/
def stripBOM (h : String) : String :=
  String.mk (h.data.dropWhile (fun c => c = '﻿'))

/-- Association update for the header-occurrence counter dict. -/
def countsSet (entries : List (String × Nat)) (key : String) (v : Nat) :
    List (String × Nat) :=
  dictSet entries key v

/-- The loop of `_dedupe_headers` (pipeline.py lines 80-92): BOM-strip each
header; the first occurrence keeps its name, each later duplicate is
renamed `name__N` where `N` is its occurrence count so far. -/
def dedupeHeadersGo : List String → List (String × Nat) → List String → List String
  | [], _, acc => acc.reverse
  | h :: rest, counts, acc =>
      let h' := stripBOM h
      match counts.lookup h' with
      | some n =>
          dedupeHeadersGo rest (countsSet counts h' (n + 1))
            ((h' ++ "__" ++ toString (n + 1)) :: acc)
      | Option.none => dedupeHeadersGo rest (counts ++ [(h', 1)]) (h' :: acc)

/-- `_dedupe_headers` (pipeline.py lines 80-92). -/
def _dedupe_headers (headers : List String) : List String :=
  dedupeHeadersGo headers [] []

/-- `itertools.zip_longest(headers, row, fillvalue="")`. -/
def zipLongestFill : List String → List String → List (String × String)
  | [], [] => []
  | [], y :: ys => ("", y) :: zipLongestFill [] ys
  | x :: xs, [] => (x, "") :: zipLongestFill xs []
  | x :: xs, y :: ys => (x, y) :: zipLongestFill xs ys

/-- One CSV data row turned into a record (pipeline.py lines 51-58): a dict
comprehension over `zip_longest`, so a duplicated header keeps its first
position but its value is overwritten by the later column. -/
def buildCsvRecord (headers row : List String) : List (String × String) :=
  (zipLongestFill headers row).foldl (fun acc kv => dictSet acc kv.1 kv.2) []

/-! ## Canonical schema v1 (`products_parsing/canonical/schema.py`)

The persistence adapter under `products_parsing/adapters/django_adapter.py`
consumes these nested v1 records.  They are plain data here (the adapter
only reads them), typed as the dataclasses declare. -/

/-- `CanonicalIdentifiers` (schema.py lines 13-17). -/
structure CanonicalIdentifiers where
  sku : Option String := Option.none
  upc_ean : Option String := Option.none
  mpn : Option String := Option.none
  deriving Repr

/-- `CanonicalBasicInfo` (schema.py lines 20-25). -/
structure CanonicalBasicInfo where
  title : Option String := Option.none
  description_text : Option String := Option.none
  description_html : Option String := Option.none
  brand : Option String := Option.none
  deriving Repr

/-- `CanonicalClassification` (schema.py lines 42-47). -/
structure CanonicalClassification where
  category : Option String := Option.none
  tags : List String := []
  gender : Option String := Option.none
  product_type : Option String := Option.none
  deriving Repr

/-- `CanonicalImage` of schema v1 (schema.py lines 50-53). -/
structure CanonicalImageV1 where
  url : Option String := Option.none
  position : Option Int := Option.none
  deriving Repr

/-- `CanonicalMedia` (schema.py lines 56-58). -/
structure CanonicalMediaV1 where
  images : List CanonicalImageV1 := []
  deriving Repr

/-- `CanonicalVariant` of schema v1 (schema.py lines 61-69). -/
structure CanonicalVariantV1 where
  sku : Option String := Option.none
  title : Option String := Option.none
  option_values : List (String × String) := []
  price : Option Rat := Option.none
  compare_at_price : Option Rat := Option.none
  barcode : Option String := Option.none
  inventory_quantity : Option Int := Option.none
  deriving Repr

/-- `CanonicalAttributes` (schema.py lines 72-74). -/
structure CanonicalAttributesV1 where
  values : List (String × PyValue) := []
  deriving Repr

/-- `CanonicalProduct` of schema v1 (schema.py lines 77-86), without the
`pricing`/`inventory` groups the adapter never reads. -/
structure CanonicalProductV1 where
  identifiers : CanonicalIdentifiers := {}
  basic_info : CanonicalBasicInfo := {}
  classification : CanonicalClassification := {}
  media : CanonicalMediaV1 := {}
  variants : List CanonicalVariantV1 := []
  attributes : CanonicalAttributesV1 := {}
  deriving Repr

/-! ## `django.utils.text.slugify` (ASCII path)

`slugify(value)`: NFKD-normalize and drop non-ASCII characters, lowercase,
drop every character that is not alphanumeric, underscore, whitespace or
hyphen, collapse every run of hyphens/whitespace into a single hyphen, and
strip leading/trailing hyphens and underscores.  On ASCII input the NFKD
step is the identity, so it is modelled as the ASCII filter alone. -/

/-- Characters kept by the `[^\w\s-]` removal (after lowering). -/
def slugKeep (c : Char) : Bool :=
  c.isAlphanum || c = '_' || isPySpace c || c = '-'

/-- Collapse runs of hyphens/whitespace into single hyphens. -/
def slugCollapse : List Char → Bool → List Char
  | [], _ => []
  | c :: rest, prevSep =>
      if isPySpace c || c = '-' then
        if prevSep then slugCollapse rest true
        else '-' :: slugCollapse rest true
      else c :: slugCollapse rest false

/-- Is a character stripped from the ends of a slug (`strip("-_")`). -/
def isDashUnderscore (c : Char) : Bool :=
  c = '-' || c = '_'

/-- `django.utils.text.slugify` over the ASCII domain. -/
def slugify (s : String) : String :=
  let cs := ((s.data.filter (fun c => c.toNat < 128)).map Char.toLower).filter slugKeep
  let collapsed := slugCollapse cs false
  String.mk (((collapsed.dropWhile isDashUnderscore).reverse.dropWhile
    isDashUnderscore).reverse)

/-! ## Persistence adapter (`products_parsing/adapters/django_adapter.py`)

The Django ORM store is modelled as in-memory tables with auto-increment
ids equal to the row count at creation time (no row is ever deleted).
`filter(...).first()` is a `find?` in insertion order.  A `transaction`
either completes or its error discards the run (no failure path below is
reachable for the inputs the claims use, apart from the explicit
`ValueError`s of `_resolve_product`). -/

/-- `PersistOptions` (django_adapter.py lines 22-27); the opaque session is
a numeric handle. -/
structure PersistOptions where
  session : Nat
  unique_identifier : String := "identifiers.sku"
  metafield_namespace : String := "canonical"
  sync_metafields : Bool := true
  deriving Repr

/-- `PersistSummary` (django_adapter.py lines 30-39). -/
structure PersistSummary where
  products_created : Nat := 0
  products_updated : Nat := 0
  variants_created : Nat := 0
  variants_updated : Nat := 0
  images_created : Nat := 0
  images_updated : Nat := 0
  metafields_created : Nat := 0
  metafields_updated : Nat := 0
  deriving Repr, DecidableEq

/-- A `shopify_sync.models.Product` row. -/
structure DBProduct where
  id : Nat
  session : Nat
  title : String
  body_html : String
  vendor : Option String
  product_type : String
  tags : String
  handle : String
  deriving Repr, DecidableEq

/-- A `shopify_sync.models.Variant` row. -/
structure DBVariant where
  id : Nat
  session : Nat
  product_id : Nat
  sku : Option String
  title : Option String
  price : Rat
  compare_at_price : Rat
  barcode : Option String
  inventory_quantity : Option Int
  grams : Int
  option1 : Option String
  option2 : Option String
  option3 : Option String
  deriving Repr

/-- A `shopify_sync.models.Image` row. -/
structure DBImage where
  id : Nat
  session : Nat
  product_id : Nat
  src : String
  position : Int
  deriving Repr

/-- A `shopify_sync.models.Metafield` row. -/
structure DBMetafield where
  id : Nat
  session : Nat
  product_id : Nat
  owner_id : Nat
  owner_resource : String
  namespc : String
  key : String
  value_type : String
  value : String
  deriving Repr

/-- The catalog store. -/
structure Store where
  products : List DBProduct := []
  variants : List DBVariant := []
  images : List DBImage := []
  metafields : List DBMetafield := []
  deriving Repr

/-- Python string truthiness of an optional string field. -/
def optStrTruthy : Option String → Bool
  | some s => s ≠ ""
  | Option.none => false

/-- Python `a or b` on an optional string (None and the empty string are
falsy). -/
def pyStrOr (a : Option String) (b : String) : String :=
  match a with
  | some s => if s = "" then b else s
  | Option.none => b

/-- `_get_identifier_value` (django_adapter.py lines 128-139). -/
def _get_identifier_value (r : CanonicalProductV1) (identifier : String) :
    Option String :=
  if identifier = "sku" ∨ identifier = "identifiers.sku" then r.identifiers.sku
  else if identifier = "handle" then
    (let sl := slugify (r.basic_info.title.getD "")
     if sl = "" then Option.none else some sl)
  else if identifier = "basic_info.title" then r.basic_info.title
  else if identifier = "basic_info.brand" then r.basic_info.brand
  else if identifier = "classification.product_type" then
    r.classification.product_type
  else Option.none

/-- `_PRODUCT_LOOKUP_FIELDS` (django_adapter.py lines 142-147). -/
def productLookupField (identifier : String) : Option String :=
  if identifier = "handle" then some "handle"
  else if identifier = "basic_info.title" then some "title"
  else if identifier = "basic_info.brand" then some "vendor"
  else if identifier = "classification.product_type" then some "product_type"
  else Option.none

/-- Read the scalar field a product lookup filters on. -/
def dbProductField (p : DBProduct) (fld : String) : Option String :=
  if fld = "handle" then some p.handle
  else if fld = "title" then some p.title
  else if fld = "vendor" then p.vendor
  else if fld = "product_type" then some p.product_type
  else Option.none

/-- `_resolve_product` (django_adapter.py lines 109-125). -/
def _resolve_product (store : Store) (r : CanonicalProductV1)
    (options : PersistOptions) : Except String (Option DBProduct) :=
  match _get_identifier_value r options.unique_identifier with
  | Option.none => .error ("Missing unique identifier for product resolution")
  | some identifier =>
      if options.unique_identifier = "sku" ∨
          options.unique_identifier = "identifiers.sku" then
        match store.variants.find? (fun v =>
            v.session = options.session ∧ v.sku = some identifier) with
        | some v => .ok (store.products.find? (fun p => p.id = v.product_id))
        | Option.none => .ok Option.none
      else
        match productLookupField options.unique_identifier with
        | Option.none => .error ("Unsupported unique identifier")
        | some fld =>
            .ok (store.products.find? (fun p =>
              p.session = options.session ∧ dbProductField p fld = some identifier))

/-- The `defaults` dict of `_build_product_defaults` (django_adapter.py
lines 89-106). -/
structure ProductDefaults where
  title : String
  body_html : String
  vendor : Option String
  product_type : String
  tags : String
  handle : String
  deriving Repr

/-- `_build_product_defaults` (django_adapter.py lines 89-106). -/
def _build_product_defaults (r : CanonicalProductV1) : ProductDefaults :=
  let title := (r.basic_info.title.getD "")
  let handle := (let sl := slugify title
                 if sl = "" then slugify (r.identifiers.sku.getD "") else sl)
  { title := title,
    body_html := r.basic_info.description_html.getD "",
    vendor := r.basic_info.brand,
    product_type :=
      pyStrOr r.classification.product_type
        (pyStrOr r.classification.category "Uncategorized"),
    tags := String.intercalate ", " r.classification.tags,
    handle := handle }

/-- Apply the defaults dict to a product row (the `setattr` loop of
`_upsert_product`, followed by `save`). -/
def applyDefaults (p : DBProduct) (d : ProductDefaults) : DBProduct :=
  { p with title := d.title, body_html := d.body_html, vendor := d.vendor,
           product_type := d.product_type, tags := d.tags, handle := d.handle }

/-- `_upsert_product` (django_adapter.py lines 73-86): resolve, then update
in place or create with an auto-generated id. -/
def _upsert_product (store : Store) (r : CanonicalProductV1)
    (options : PersistOptions) : Except String (Store × DBProduct × Bool) :=
  match _resolve_product store r options with
  | .error e => .error e
  | .ok Option.none =>
      let d := _build_product_defaults r
      let p : DBProduct :=
        { id := store.products.length, session := options.session,
          title := d.title, body_html := d.body_html, vendor := d.vendor,
          product_type := d.product_type, tags := d.tags, handle := d.handle }
      .ok ({ store with products := store.products ++ [p] }, p, true)
  | .ok (some p0) =>
      let p1 := applyDefaults p0 (_build_product_defaults r)
      .ok ({ store with products :=
               store.products.map (fun q => if q.id = p0.id then p1 else q) },
           p1, false)

/-- `_safe_decimal` (django_adapter.py lines 280-283). -/
def _safe_decimal (v : Option Rat) : Rat :=
  match v with
  | Option.none => mkRat 0 1
  | some q => q

/-- `_update_variant_fields` (django_adapter.py lines 183-195). -/
def _update_variant_fields (v : DBVariant) (vr : CanonicalVariantV1) : DBVariant :=
  let opts := vr.option_values.map Prod.snd
  { v with
    sku := vr.sku,
    title := vr.title,
    price := _safe_decimal vr.price,
    compare_at_price := _safe_decimal vr.compare_at_price,
    barcode := vr.barcode,
    inventory_quantity := vr.inventory_quantity,
    grams := 0,
    option1 := opts.get? 0,
    option2 := opts.get? 1,
    option3 := opts.get? 2 }

/-- One iteration of the `_sync_variants` loop (django_adapter.py lines
150-180): match by `(product, session, sku)` only for truthy SKUs; update
in place or create a fresh row. -/
def syncVariantStep (options : PersistOptions) (product : DBProduct)
    (st : Store × Nat × Nat) (vr : CanonicalVariantV1) : Store × Nat × Nat :=
  let store := st.1
  let found :=
    if optStrTruthy vr.sku then
      store.variants.find? (fun v =>
        v.product_id = product.id ∧ v.session = options.session ∧ v.sku = vr.sku)
    else Option.none
  match found with
  | Option.none =>
      let base : DBVariant :=
        { id := store.variants.length, session := options.session,
          product_id := product.id, sku := Option.none, title := Option.none,
          price := mkRat 0 1, compare_at_price := mkRat 0 1,
          barcode := Option.none, inventory_quantity := Option.none,
          grams := 0, option1 := Option.none, option2 := Option.none,
          option3 := Option.none }
      ({ store with variants := store.variants ++ [_update_variant_fields base vr] },
       st.2.1 + 1, st.2.2)
  | some v0 =>
      let v1 := _update_variant_fields v0 vr
      ({ store with variants :=
           store.variants.map (fun w => if w.id = v0.id then v1 else w) },
       st.2.1, st.2.2 + 1)

/-- `_sync_variants` (django_adapter.py lines 150-180). -/
def _sync_variants (store : Store) (product : DBProduct)
    (r : CanonicalProductV1) (options : PersistOptions) : Store × Nat × Nat :=
  r.variants.foldl (syncVariantStep options product) (store, 0, 0)

/-- One iteration of the `_sync_images` loop (django_adapter.py lines
198-224): skip images with a falsy url; match by `(product, src)`; only
`position` (with falsy-to-1 coalescing) and `src` are written. -/
def syncImageStep (product : DBProduct) (st : Store × Nat × Nat)
    (ir : CanonicalImageV1) : Store × Nat × Nat :=
  let store := st.1
  if optStrTruthy ir.url then
    let url := ir.url.getD ""
    let position : Int :=
      match ir.position with
      | some n => if n = 0 then 1 else n
      | Option.none => 1
    match store.images.find? (fun im => im.product_id = product.id ∧ im.src = url) with
    | Option.none =>
        ({ store with images := store.images ++
             [{ id := store.images.length, session := product.session,
                product_id := product.id, src := url, position := position }] },
         st.2.1 + 1, st.2.2)
    | some im0 =>
        ({ store with images := store.images.map (fun im =>
             if im.id = im0.id then { im with src := url, position := position }
             else im) },
         st.2.1, st.2.2 + 1)
  else st

/-- `_sync_images` (django_adapter.py lines 198-224). -/
def _sync_images (store : Store) (product : DBProduct)
    (r : CanonicalProductV1) : Store × Nat × Nat :=
  r.media.images.foldl (syncImageStep product) (store, 0, 0)

/-- `json.dumps` fallback chain of `_serialize_value` (django_adapter.py
lines 267-275).  Metafield payloads exercised by the claims are strings or
`None`; the remaining branches render primitives best-effort. -/
def _serialize_value : PyValue → String
  | .none => ""
  | .str s => s
  | .bool b => if b then "true" else "false"
  | .int n => toString n
  | .float q => toString q.num ++ "/" ++ toString q.den
  | .decimal q => toString q.num ++ "/" ++ toString q.den
  | .list _ => "[...]"
  | .dict _ => "\x7b...\x7d"

/-- One iteration of the `_sync_metafields` loop (django_adapter.py lines
227-264): keys are truncated to 30 characters, the namespace to 20; match
by `(product, namespace, key)`. -/
def syncMetafieldStep (options : PersistOptions) (product : DBProduct)
    (st : Store × Nat × Nat) (kv : String × PyValue) : Store × Nat × Nat :=
  let store := st.1
  let key_str := kv.1.take 30
  let ns := options.metafield_namespace.take 20
  match store.metafields.find? (fun m =>
      m.product_id = product.id ∧ m.namespc = ns ∧ m.key = key_str) with
  | Option.none =>
      ({ store with metafields := store.metafields ++
           [{ id := store.metafields.length, session := product.session,
              product_id := product.id, owner_id := product.id,
              owner_resource := "product", namespc := ns, key := key_str,
              value_type := "string", value := _serialize_value kv.2 }] },
       st.2.1 + 1, st.2.2)
  | some m0 =>
      ({ store with metafields := store.metafields.map (fun m =>
           if m.id = m0.id then
             { m with namespc := ns, key := key_str, value_type := "string",
                      value := _serialize_value kv.2 }
           else m) },
       st.2.1, st.2.2 + 1)

/-- `_sync_metafields` (django_adapter.py lines 227-264). -/
def _sync_metafields (store : Store) (product : DBProduct)
    (r : CanonicalProductV1) (options : PersistOptions) : Store × Nat × Nat :=
  r.attributes.values.foldl (syncMetafieldStep options product) (store, 0, 0)

/-- `_persist_one` (django_adapter.py lines 51-70): one transaction for one
record — upsert the product, then sync variants, images and (if enabled)
metafields, accumulating counts into the summary. -/
def _persist_one (store : Store) (r : CanonicalProductV1)
    (options : PersistOptions) (summary : PersistSummary) :
    Except String (Store × PersistSummary) :=
  match _upsert_product store r options with
  | .error e => .error e
  | .ok (store1, product, created) =>
      let summary :=
        if created then
          { summary with products_created := summary.products_created + 1 }
        else
          { summary with products_updated := summary.products_updated + 1 }
      let (store2, vc, vu) := _sync_variants store1 product r options
      let summary := { summary with
        variants_created := summary.variants_created + vc,
        variants_updated := summary.variants_updated + vu }
      let (store3, ic, iu) := _sync_images store2 product r
      let summary := { summary with
        images_created := summary.images_created + ic,
        images_updated := summary.images_updated + iu }
      if options.sync_metafields then
        let (store4, mc, mu) := _sync_metafields store3 product r options
        .ok (store4, { summary with
          metafields_created := summary.metafields_created + mc,
          metafields_updated := summary.metafields_updated + mu })
      else .ok (store3, summary)

/-- The loop of `persist_records` (django_adapter.py lines 42-48). -/
def persistRecordsGo (options : PersistOptions) :
    List CanonicalProductV1 → Store → PersistSummary →
    Except String (PersistSummary × Store)
  | [], store, summary => .ok (summary, store)
  | r :: rest, store, summary =>
      match _persist_one store r options summary with
      | .error e => .error e
      | .ok (store2, summary2) => persistRecordsGo options rest store2 summary2

/-- `persist_records` (django_adapter.py lines 42-48), returning the final
summary and the resulting store state. -/
def persist_records (records : List CanonicalProductV1)
    (options : PersistOptions) (store : Store) :
    Except String (PersistSummary × Store) :=
  persistRecordsGo options records store {}

/-! ## Pipeline (`products_parsing/pipeline.py` lines 13-34)

`run_pipeline` loads the provider config, then hands the lazy
`parse_records` generator to `persist_records`.  The config document is
taken here already JSON-parsed (the file read of `load_provider_config` is
outside the embedding).

Producing the first canonical record evaluates
`_new_product(config.schema_version)` (engine.py line 16) — an attribute
read on the `ProviderConfig` the loader just built.  That dataclass
defines exactly the attributes in `providerConfigAttrNames`, so the read
raises `AttributeError` (the repository's own `test_parser_v2.py` line 32
has to pass `schema_version="v2"` to `ProviderConfig`, an argument the
dataclass constructor rejects for the same reason). -/

/-- An exception escaping `run_pipeline`. -/
inductive PipelineExc where
  | configError (msg : String)
  | attributeError (attr : String)
  deriving Repr, DecidableEq

/-- The instance attributes of a loader `ProviderConfig` (loader.py lines
27-32): exactly its four dataclass fields. -/
def providerConfigAttrNames : List String :=
  ["provider_id", "mappings", "error_policy", "transform_params"]

/-- The read `config.schema_version` performed by `parse_records` on a
loader-built config: an `AttributeError`, since `schema_version` is not
among the dataclass attributes. -/
def loadedConfigSchemaVersion (_c : ProviderConfig) : Except PipelineExc String :=
  if h : "schema_version" ∈ providerConfigAttrNames then absurd h (by decide)
  else .error (.attributeError "schema_version")

/-- `run_pipeline` (pipeline.py lines 13-34) on already-loaded records and
an already-parsed config document.  With no records the generator is never
advanced and the empty summary is returned; with at least one record, the
first `_new_product(config.schema_version)` raises. -/
def run_pipeline (records : List (List (String × PyValue)))
    (configDoc : PyValue) (config_path : String) :
    Except PipelineExc (PersistSummary × List ParseError) :=
  match load_provider_config_from_dict configDoc config_path with
  | .error e => .error (.configError e)
  | .ok config =>
      match records with
      | [] => .ok ({}, [])
      | _ :: _ =>
          match loadedConfigSchemaVersion config with
          | .error e => .error e
          | .ok _ =>
              -- unreachable: `loadedConfigSchemaVersion` always raises
              .ok ({}, [])

/-! ## Concrete inputs used by the claim theorems and witnesses -/

/-- The price field (or any named field) of the i-th variant of a product,
read through the reference list. -/
def variantFieldAt (p : CanonicalProductV2) (i : Nat) (name : String) : PyValue :=
  match p.variants.get? i with
  | some id =>
      match p.variantHeap.get? id with
      | some v => dictGet v.attrs name
      | Option.none => .none
  | Option.none => .none

/-- The product produced by assigning `variants.2.price := 7` on a fresh
product: three references to ONE padded variant whose price was set. -/
def prodAfterVariants2Price : CanonicalProductV2 :=
  { attrs := newProductV2.attrs,
    variants := [0, 0, 0],
    variantHeap := [newVariantObj.setattr "price" (.int 7)],
    images := [], imageHeap := [], metadata := [] }

/-- A canonical v2 product with one variant carrying `supplier_sku="X"`. -/
def productWithSkuX : CanonicalProductV2 :=
  { attrs := newProductV2.attrs,
    variants := [0],
    variantHeap := [newVariantObj.setattr "supplier_sku" (.str "X")],
    images := [], imageHeap := [], metadata := [] }

/-- The provider-config document of the end-to-end claim:
`Title→title, SKU→variants.0.supplier_sku, Qty→variants.0.quantity
(parse_int)`. -/
def c1ConfigDoc : PyValue :=
  .dict [("provider_id", .str "demo"),
    ("mappings", .list [
      .dict [("source", .str "Title"), ("destination", .str "title")],
      .dict [("source", .str "SKU"), ("destination", .str "variants.0.supplier_sku")],
      .dict [("source", .str "Qty"), ("destination", .str "variants.0.quantity"),
             ("transforms", .list [.dict [("name", .str "parse_int")]])]])]

/-- Two CSV-derived records sharing no SKU. -/
def c1Records : List (List (String × PyValue)) :=
  [[("Title", .str "Alpha"), ("SKU", .str "SKU-1"), ("Qty", .str "1")],
   [("Title", .str "Beta"), ("SKU", .str "SKU-2"), ("Qty", .str "2")]]

/-- The same mappings as `c1ConfigDoc`, as the engine-side config (with the
`schema_version="v2"` attribute the engine requires, as the parser test
constructs it). -/
def c1EngineConfig : EngineConfig :=
  { provider_id := "demo",
    mappings := [⟨"Title", "title", [], .none⟩,
                 ⟨"SKU", "variants.0.supplier_sku", [], .none⟩,
                 ⟨"Qty", "variants.0.quantity", [⟨"parse_int", []⟩], .none⟩],
    error_policy := "continue",
    transform_params := [] }

/-- A config document whose `mappings` is not a list and whose
`transform_params` is not an object. -/
def c4doc1 : PyValue :=
  .dict [("provider_id", .str "p"), ("mappings", .int 5),
         ("transform_params", .int 7)]

/-- The same document with `mappings` fixed: the `transform_params` defect
is now reported. -/
def c4doc2 : PyValue :=
  .dict [("provider_id", .str "p"), ("mappings", .list []),
         ("transform_params", .int 7)]

/-- A failing-transform scenario: `parse_int` applied to the non-numeric
source value `"abc"`. -/
def ruleC6 : MappingRule := ⟨"a", "title", [⟨"parse_int", []⟩], .none⟩

/-- An engine config with `error_policy="fail"`. -/
def cfgC6fail : EngineConfig :=
  { provider_id := "p", mappings := [ruleC6], error_policy := "fail",
    transform_params := [] }

/-- An engine config with `error_policy="continue"`. -/
def cfgC6cont : EngineConfig :=
  { provider_id := "p", mappings := [ruleC6], error_policy := "continue",
    transform_params := [] }

/-- The record feeding `ruleC6`. -/
def recC6 : List (String × PyValue) := [("a", .str "abc")]

/-- The `ParseError` the engine builds when `parse_int` raises on `"abc"`
for `ruleC6` at record 0 of provider `p`. -/
def errC6 : ParseError :=
  { provider_id := "p", record_index := 0, source := some "a",
    destination := some "title", transform := some "parse_int",
    message := "parse_int expects a numeric value" }

/-- A rule whose transform chain evaluates to `None`: `parse_int` on a
blank string. -/
def ruleC10 : MappingRule := ⟨"Qty", "variants.0.quantity", [⟨"parse_int", []⟩], .none⟩

/-- The record feeding `ruleC10` a blank quantity. -/
def recC10 : List (String × PyValue) := [("Qty", .str " ")]

/-- `PersistOptions` with `unique_identifier="handle"`. -/
def optionsHandle (session : Nat) : PersistOptions :=
  { session := session, unique_identifier := "handle" }

/-- Two consecutive `persist_records` calls on the same single record,
threading the store. -/
def persistTwice (r : CanonicalProductV1) (options : PersistOptions) :
    Except String (PersistSummary × PersistSummary × Store) :=
  match persist_records [r] options {} with
  | .error e => .error e
  | .ok (s1, st1) =>
      match persist_records [r] options st1 with
      | .error e => .error e
      | .ok (s2, st2) => .ok (s1, s2, st2)

/-- The record persisted twice in the idempotence witness. -/
def recC7 : CanonicalProductV1 :=
  { identifiers := {}, basic_info := { title := some "Test" },
    classification := {}, media := {},
    variants := [{ sku := some "SKU-1" }], attributes := {} }

/-! ## Claim theorems -/

/-! Sanity checks of the embedding on the concrete cases the repository's
own tests and the specification's examples exercise. -/

example : parse_int (.str " 1,234 ") [] = .ok (.int 1234) := by rfl
example : parse_int (.str "") [] = .ok .none := by rfl
example : parse_int (.str "3.9") [] = .ok (.int 3) := by rfl
example : parse_int (.str "-3.9") [] = .ok (.int (-3)) := by rfl
example : parse_bool (.str "YES ") [] = .ok (.bool true) := by rfl
example : parse_bool (.str "0") [] = .ok (.bool false) := by rfl
example : parse_price (.str "$19.99 each") [] = .ok (.decimal (mkRat 1999 100)) := by rfl
example : trim (.str "  abc ") [] = .ok (.str "abc") := by rfl
example :
    validate_provider_config (.dict [("provider_id", .str "p"),
      ("mappings", .list [])]) = [] := by rfl
example :
    validate_provider_config (.dict [("provider_id", .str " ")]) =
      [⟨"provider_id", "Required"⟩, ⟨"mappings", "Expected list"⟩] := by rfl
example : _dedupe_headers ["A", "A", "A"] = ["A", "A__2", "A__3"] := by rfl
example : _dedupe_headers ["﻿T", "T"] = ["T", "T__2"] := by rfl
example : _dedupe_headers ["A", "A__2", "A"] = ["A", "A__2", "A__2"] := by rfl
example : slugify "Test" = "test" := by rfl
example : slugify " My  Product-Name! " = "my-product-name" := by rfl
example : slugify "!!!" = "" := by rfl


/-- C9: `parse_int` passes ints through unchanged, truncates floats toward
zero, and on strings strips whitespace and thousands separators, maps the
empty result to `None`, and otherwise parses via float-then-int;
non-numeric inputs (non-numeric strings, bools, containers) fail with an
error; in particular `parse_int("1,234") = 1234` and
`parse_int("") = None`. -/
theorem parse_int_spec (n : Int) (q : Rat) (s : String)
    (hblank : removeCommas (pyStrip s) = "") :
    parse_int (.int n) [] = .ok (.int n) ∧
    parse_int (.float q) [] = .ok (.int (truncToZero q)) ∧
    parse_int (.str s) [] = .ok .none ∧
    parse_int (.str "1,234") [] = .ok (.int 1234) ∧
    parse_int (.str " 1,234 ") [] = .ok (.int 1234) ∧
    parse_int (.str "") [] = .ok .none ∧
    parse_int (.float (mkRat 39 10)) [] = .ok (.int 3) ∧
    parse_int (.float (mkRat (-39) 10)) [] = .ok (.int (-3)) ∧
    parse_int (.str "abc") [] = .error "parse_int expects a numeric value" ∧
    parse_int (.bool true) [] = .error "parse_int expects a numeric value" ∧
    parse_int (.list []) [] = .error "parse_int expects a string or numeric value" := by
  refine ⟨rfl, rfl, ?_, rfl, rfl, rfl, rfl, rfl, rfl, rfl, rfl⟩
  simp [parse_int, hblank]

/-- Witness for C9 at `n = 5`, `q = 39/10`, `s = "  "`. -/
theorem parse_int_spec_witness :
    parse_int (.int 5) [] = .ok (.int 5) ∧
    parse_int (.float (mkRat 39 10)) [] = .ok (.int (truncToZero (mkRat 39 10))) ∧
    parse_int (.str "  ") [] = .ok .none :=
  let h := parse_int_spec 5 (mkRat 39 10) "  " (by rfl)
  ⟨h.1, h.2.1, h.2.2.1⟩

/-- C2 (counterexample / failing input): assigning `variants.2.price := 7`
on a product with an empty variants list succeeds and yields a 3-element
list, but the three slots are references to ONE shared padded variant
(`[_new_variant("v2")] * 3` repeats the same object), so elements 0 and 1
are not distinct fresh variants and their `price` is also 7, not unset. -/
theorem variants_pad_aliasing_at_failing_input :
    _assign_value newProductV2 "variants.2.price" (.int 7) =
      .ok prodAfterVariants2Price ∧
    prodAfterVariants2Price.variants = [0, 0, 0] ∧
    prodAfterVariants2Price.variantHeap.length = 1 ∧
    prodAfterVariants2Price.variants.get? 0 = prodAfterVariants2Price.variants.get? 2 ∧
    variantFieldAt prodAfterVariants2Price 2 "price" = .int 7 ∧
    variantFieldAt prodAfterVariants2Price 0 "price" = .int 7 ∧
    variantFieldAt prodAfterVariants2Price 1 "price" = .int 7 ∧
    ¬ variantFieldAt prodAfterVariants2Price 0 "price" = .none := by
  refine ⟨by rfl, by rfl, by rfl, by rfl, by rfl, by rfl, by rfl, ?_⟩
  intro h
  rw [show variantFieldAt prodAfterVariants2Price 0 "price" = .int 7 from by rfl] at h
  exact nomatch h

/-- C3 (failing input): with `required_fields = [variants.0.supplier_sku]`,
`validate` on a product with an empty variants list returns the
missing-required-value issue for that path (first half of the claim, which
holds); but on a product whose variants hold one `CanonicalVariant` with
`supplier_sku="X"`, `validate` raises `AttributeError` at the
`variant.unit_cost` read (validator.py line 186) instead of returning an
issue list — `schema_v2.CanonicalVariant` has no `unit_cost` attribute. -/
theorem validate_variant_attribute_error :
    validate ["variants.0.supplier_sku"] newProductV2 =
      .ok [⟨"variants.0.supplier_sku", "Missing required value"⟩] ∧
    validate ["variants.0.supplier_sku"] productWithSkuX =
      .error (.attributeError "unit_cost") :=
  ⟨by rfl, by rfl⟩

/-- C1 (failing input): the claim's provider config loads successfully,
and the parser engine itself (given the `schema_version="v2"` attribute it
requires) turns the two records into two one-variant products with no
errors; but `run_pipeline`, which feeds the loader-built `ProviderConfig`
to `parse_records`, raises `AttributeError("schema_version")` at the first
record (engine.py line 16 reads an attribute loader.py lines 27-32 never
defines) instead of returning a `(PersistSummary, ParseReport)` pair. -/
theorem run_pipeline_schema_version_attribute_error :
    load_provider_config_from_dict c1ConfigDoc "provider.json" =
      .ok { provider_id := "demo",
            mappings := [⟨"Title", "title", [], .none⟩,
                         ⟨"SKU", "variants.0.supplier_sku", [], .none⟩,
                         ⟨"Qty", "variants.0.quantity", [⟨"parse_int", []⟩], .none⟩],
            error_policy := "continue", transform_params := [] } ∧
    (parse_records c1Records c1EngineConfig []).toOption.map
        (fun x => (x.1.length, x.1.map (fun p => p.variants.length),
                   x.1.map (fun p => variantFieldAt p 0 "supplier_sku"), x.2)) =
      some (2, [1, 1], [.str "SKU-1", .str "SKU-2"], []) ∧
    run_pipeline c1Records c1ConfigDoc "provider.json" =
      .error (.attributeError "schema_version") :=
  ⟨by rfl, by rfl, by rfl⟩

/-- C4 (counterexample): on a document whose `mappings` is not a list AND
whose `transform_params` is not an object, validation returns early after
the `mappings` issue, so the `transform_params` issue — which the very
same defect produces on `c4doc2` — is never accumulated, and the raised
error does not report it. -/
theorem load_config_counterexample :
    validate_provider_config c4doc1 = [⟨"mappings", "Expected list"⟩] ∧
    validate_provider_config c4doc2 = [⟨"transform_params", "Expected object"⟩] ∧
    (⟨"transform_params", "Expected object"⟩ : ConfigValidationIssue) ∉
      validate_provider_config c4doc1 ∧
    load_provider_config_from_dict c4doc1 "<dict>" =
      .error "Invalid provider config (<dict>): mappings: Expected list" :=
  ⟨by rfl, by rfl, by decide, by rfl⟩

/-- C4 (amended): whenever `validate_provider_config` collects a non-empty
issue list, `load_provider_config_from_dict` raises a single error
reporting every collected issue (each path and message, joined by
`_format_issues`) and constructs no `ProviderConfig` at all; the
qualification forced by the counterexample is that validation stops early
when the document is not an object or `mappings` is not a list, so issues
past that point are not collected. -/
theorem load_config_reports_all_collected (data : PyValue) (source_path : String)
    (hne : validate_provider_config data ≠ []) :
    load_provider_config_from_dict data source_path =
      .error ("Invalid provider config (" ++ source_path ++ "): " ++
        _format_issues (validate_provider_config data)) ∧
    ∀ cfg : ProviderConfig,
      load_provider_config_from_dict data source_path ≠ .ok cfg := by
  have h : load_provider_config_from_dict data source_path =
      .error ("Invalid provider config (" ++ source_path ++ "): " ++
        _format_issues (validate_provider_config data)) := by
    unfold load_provider_config_from_dict
    simp [hne]
  exact ⟨h, fun cfg hok => by rw [h] at hok; exact nomatch hok⟩

/-- Witness for the amended C4 at `c4doc1`. -/
theorem load_config_reports_all_collected_witness :
    load_provider_config_from_dict c4doc1 "<dict>" =
      .error ("Invalid provider config (<dict>): " ++
        _format_issues (validate_provider_config c4doc1)) :=
  (load_config_reports_all_collected c4doc1 "<dict>" (by decide)).1

/-- C5: under `error_policy="continue"`, a rule whose dot-delimited source
path is absent from the raw record (missing segment or non-object
intermediate, i.e. `_extract_value` yields `None`) and that supplies no
default is skipped entirely: the canonical product is untouched (every
destination stays at its default), nothing is raised, and no error is
recorded in the report. -/
theorem absent_source_skips_rule (config : EngineConfig) (record_index : Nat)
    (record : List (String × PyValue)) (rule : MappingRule)
    (product : CanonicalProductV2) (report : List ParseError)
    (_hpolicy : config.error_policy = "continue")
    (habsent : _extract_value record rule.source = .none)
    (hnodefault : rule.default = .none) :
    applyRule config record_index record (product, report) rule =
      .ok (product, report) := by
  unfold applyRule
  simp [habsent, hnodefault, PyValue.isNone]

/-- Witness for C5: a record whose only key is `"a"`, a rule sourcing the
missing path `"b.c"` into `"title"` with no default. -/
theorem absent_source_skips_rule_witness :
    applyRule cfgC6cont 0 [("a", .int 1)] (newProductV2, [])
      ⟨"b.c", "title", [], .none⟩ = .ok (newProductV2, []) :=
  absent_source_skips_rule cfgC6cont 0 [("a", .int 1)]
    ⟨"b.c", "title", [], .none⟩ newProductV2 [] rfl (by rfl) rfl

/-- Unfolding equation for `processRules` on a non-empty rule list. -/
theorem processRules_cons (config : EngineConfig) (ri : Nat)
    (record : List (String × PyValue)) (rule : MappingRule)
    (rest : List MappingRule) (st : CanonicalProductV2 × List ParseError) :
    processRules config ri record (rule :: rest) st =
      match applyRule config ri record st rule with
      | .error e => .error e
      | .ok st2 => processRules config ri record rest st2 := rfl

/-- Helper: any `ParseError` returned by the transform chain carries the
config's provider id, the record index, the rule's source and destination,
and the name of one of the rule's transforms. -/
theorem applyTransformsList_error_fields (config : EngineConfig) (ri : Nat)
    (rule : MappingRule) :
    ∀ (ts : List TransformSpec) (v : PyValue) (err : ParseError),
      applyTransformsList config ri rule ts v = .error err →
      err.provider_id = config.provider_id ∧ err.record_index = ri ∧
      err.source = some rule.source ∧ err.destination = some rule.destination ∧
      ∃ t ∈ ts, err.transform = some t.name := by
  intro ts
  induction ts with
  | nil => intro v err h; exact nomatch h
  | cons t rest ih =>
      intro v err h
      unfold applyTransformsList at h
      cases happ : apply_transform t.name v (_merge_transform_params t config) with
      | error msg =>
          rw [happ] at h
          cases h
          exact ⟨rfl, rfl, rfl, rfl, t, by simp, rfl⟩
      | ok w =>
          rw [happ] at h
          obtain ⟨h1, h2, h3, h4, t2, ht2, h5⟩ := ih w err h
          exact ⟨h1, h2, h3, h4, t2, by simp [ht2], h5⟩

/-- C6: when a rule's transform chain raises (on a value that survived
extraction/defaulting), the engine builds a `ParseError` carrying
provider_id, record_index, source, destination, the failing transform's
name and the failure message; under `error_policy="fail"` the error is
appended to the report and the cause is re-raised, aborting the record
(remaining rules never run); under `"continue"` the same error is
appended, the destination is left untouched, and the remaining rules of
the record still execute from the same product state. -/
theorem transform_failure_policy (config : EngineConfig) (ri : Nat)
    (record : List (String × PyValue)) (rule : MappingRule)
    (rest : List MappingRule) (product : CanonicalProductV2)
    (report : List ParseError) (v0 : PyValue) (err : ParseError)
    (hv : (if (_extract_value record rule.source).isNone then rule.default
           else _extract_value record rule.source) = v0)
    (hvn : v0.isNone = false)
    (herr : _apply_transforms v0 rule config ri = .error err) :
    (err.provider_id = config.provider_id ∧ err.record_index = ri ∧
     err.source = some rule.source ∧ err.destination = some rule.destination ∧
     ∃ t ∈ rule.transforms, err.transform = some t.name) ∧
    (config.error_policy = "fail" →
      processRules config ri record (rule :: rest) (product, report) =
        .error (report ++ [err], err.message)) ∧
    (config.error_policy = "continue" →
      processRules config ri record (rule :: rest) (product, report) =
        processRules config ri record rest (product, report ++ [err])) := by
  have hfields := applyTransformsList_error_fields config ri rule
    rule.transforms v0 err herr
  have happly : applyRule config ri record (product, report) rule =
      (if config.error_policy = "fail" then
        .error (report ++ [err], err.message)
       else .ok (product, report ++ [err])) := by
    simp only [applyRule]
    rw [hv]
    simp only [hvn, Bool.false_eq_true, if_false, herr]
  refine ⟨hfields, ?_, ?_⟩
  · intro hp
    rw [processRules_cons, happly, if_pos hp]
  · intro hp
    rw [processRules_cons, happly, hp, if_neg (by decide)]

/-- Witness for C6 under the `fail` policy: `parse_int` raising on the
source value `"abc"` aborts the record with the error recorded. -/
theorem transform_failure_policy_witness :
    processRules cfgC6fail 0 recC6 [ruleC6] (newProductV2, []) =
      .error ([errC6], "parse_int expects a numeric value") :=
  (transform_failure_policy cfgC6fail 0 recC6 ruleC6 [] newProductV2 []
    (.str "abc") errC6 (by rfl) (by rfl) (by rfl)).2.1 rfl

/-- C10: a completed rule either leaves the canonical product untouched or
assigns some non-`None` value at its destination (the parser never writes
`None` into a destination field); in particular, when the rule's transform
chain evaluates to `None` (e.g. `parse_int` on a blank string), the
assignment step is skipped and both the product and the report are
unchanged. -/
theorem none_chain_skips_assignment (config : EngineConfig) (ri : Nat)
    (record : List (String × PyValue)) (rule : MappingRule)
    (product : CanonicalProductV2) (report : List ParseError)
    (product' : CanonicalProductV2) (report' : List ParseError)
    (hok : applyRule config ri record (product, report) rule =
      .ok (product', report')) :
    (product' = product ∨
      ∃ v : PyValue, v.isNone = false ∧
        _assign_value product rule.destination v = .ok product') ∧
    (_apply_transforms
        (if (_extract_value record rule.source).isNone then rule.default
         else _extract_value record rule.source) rule config ri = .ok .none →
      product' = product ∧ report' = report) := by
  simp only [applyRule] at hok
  by_cases hn : (if (_extract_value record rule.source).isNone then rule.default
      else _extract_value record rule.source).isNone = true
  · rw [if_pos hn] at hok
    cases hok
    exact ⟨Or.inl rfl, fun _ => ⟨rfl, rfl⟩⟩
  · rw [if_neg hn] at hok
    cases hchain : _apply_transforms
        (if (_extract_value record rule.source).isNone then rule.default
         else _extract_value record rule.source) rule config ri with
    | error err =>
        simp only [hchain] at hok
        by_cases hp : config.error_policy = "fail"
        · rw [if_pos hp] at hok; exact nomatch hok
        · rw [if_neg hp] at hok
          cases hok
          exact ⟨Or.inl rfl, fun hc => nomatch hc⟩
    | ok v =>
        simp only [hchain] at hok
        by_cases hvn : v.isNone = true
        · rw [if_pos hvn] at hok
          cases hok
          exact ⟨Or.inl rfl, fun _ => ⟨rfl, rfl⟩⟩
        · rw [if_neg hvn] at hok
          cases hassign : _assign_value product rule.destination v with
          | ok p2 =>
              simp only [hassign] at hok
              cases hok
              refine ⟨Or.inr ⟨v, by simpa using hvn, hassign⟩, fun hc => ?_⟩
              cases hc
              exact absurd rfl hvn
          | error msg =>
              simp only [hassign] at hok
              by_cases hp : config.error_policy = "fail"
              · rw [if_pos hp] at hok; exact nomatch hok
              · rw [if_neg hp] at hok
                cases hok
                refine ⟨Or.inl rfl, fun hc => ?_⟩
                cases hc
                exact absurd rfl hvn

/-- Witness for C10: `parse_int` on the blank string `" "` evaluates to
`None`; the rule completes with the fresh product and empty report both
unchanged. -/
theorem none_chain_skips_assignment_witness :
    (newProductV2 = newProductV2 ∨
      ∃ v : PyValue, v.isNone = false ∧
        _assign_value newProductV2 ruleC10.destination v = .ok newProductV2) ∧
    (_apply_transforms
        (if (_extract_value recC10 ruleC10.source).isNone then ruleC10.default
         else _extract_value recC10 ruleC10.source) ruleC10 cfgC6cont 0 =
          .ok .none →
      newProductV2 = newProductV2 ∧ ([] : List ParseError) = []) :=
  none_chain_skips_assignment cfgC6cont 0 recC10 ruleC10 newProductV2 []
    newProductV2 [] (by rfl)

/-- Helper: appending a fresh single binding does not make an absent key
present, as long as the key differs from the appended one. -/
theorem lookup_append_none {α : Type} (xs : List (String × α)) (k' : String)
    (v : α) (k : String) (hx : xs.lookup k = Option.none) (hk : k ≠ k') :
    (xs ++ [(k', v)]).lookup k = Option.none := by
  induction xs with
  | nil =>
      have hb : (k == k') = false := beq_eq_false_iff_ne.mpr hk
      simp [List.lookup, hb]
  | cons e rest ih =>
      obtain ⟨a, b⟩ := e
      by_cases hab : k = a
      · subst hab; simp [List.lookup] at hx
      · have hb : (k == a) = false := beq_eq_false_iff_ne.mpr hab
        simp only [List.lookup, hb, List.cons_append] at hx ⊢
        exact ih hx

/-- Helper: `_dedupe_headers` on headers whose BOM-stripped names are fresh
for the running counter and pairwise distinct just BOM-strips them. -/
theorem dedupeGo_fresh :
    ∀ (hs : List String) (counts : List (String × Nat)) (acc : List String),
      (∀ h ∈ hs, counts.lookup (stripBOM h) = Option.none) →
      (hs.map stripBOM).Nodup →
      dedupeHeadersGo hs counts acc = acc.reverse ++ hs.map stripBOM := by
  intro hs
  induction hs with
  | nil => intro counts acc _ _; simp [dedupeHeadersGo]
  | cons h rest ih =>
      intro counts acc hfresh hnodup
      have hh : counts.lookup (stripBOM h) = Option.none := hfresh h (by simp)
      rw [List.map_cons, List.nodup_cons] at hnodup
      unfold dedupeHeadersGo
      simp only [hh]
      rw [ih (counts ++ [(stripBOM h, 1)]) (stripBOM h :: acc)
        (fun g hg => lookup_append_none counts (stripBOM h) 1 (stripBOM g)
          (hfresh g (by simp [hg]))
          (fun heq => hnodup.1 (heq ▸ List.mem_map_of_mem stripBOM hg)))
        hnodup.2]
      simp

/-- Helper: `zip_longest` keeps exactly the header names as keys when the
row is no longer than the header list. -/
theorem zipLongest_keys :
    ∀ (hs row : List String), row.length ≤ hs.length →
      (zipLongestFill hs row).map Prod.fst = hs := by
  intro hs
  induction hs with
  | nil =>
      intro row hrow
      rw [List.length_nil, Nat.le_zero, List.length_eq_zero] at hrow
      subst hrow; simp [zipLongestFill]
  | cons x xs ih =>
      intro row hrow
      cases row with
      | nil => simpa [zipLongestFill] using ih [] (by simp)
      | cons y ys =>
          simp only [zipLongestFill, List.map_cons, List.cons.injEq, true_and]
          exact ih ys (Nat.le_of_succ_le_succ hrow)

/-- Helper: setting an absent key appends it. -/
theorem dictSet_append {α : Type} :
    ∀ (acc : List (String × α)) (k : String) (v : α),
      acc.lookup k = Option.none → dictSet acc k v = acc ++ [(k, v)] := by
  intro acc
  induction acc with
  | nil => intro k v _; rfl
  | cons e rest ih =>
      intro k v h
      obtain ⟨a, b⟩ := e
      by_cases hab : k = a
      · subst hab; simp [List.lookup] at h
      · have hb : (k == a) = false := beq_eq_false_iff_ne.mpr hab
        simp only [List.lookup, hb] at h
        simp [dictSet, Ne.symm hab]
        exact ih k v h

/-- Helper: folding `dictSet` over pairwise-distinct fresh keys appends
them all in order. -/
theorem fold_dictSet_fresh :
    ∀ (pairs acc : List (String × String)),
      (pairs.map Prod.fst).Nodup → (∀ q ∈ pairs, acc.lookup q.1 = Option.none) →
      pairs.foldl (fun a kv => dictSet a kv.1 kv.2) acc = acc ++ pairs := by
  intro pairs
  induction pairs with
  | nil => intro acc _ _; simp
  | cons kv rest ih =>
      intro acc hnodup hfresh
      rw [List.map_cons, List.nodup_cons] at hnodup
      have hset : dictSet acc kv.1 kv.2 = acc ++ [(kv.1, kv.2)] :=
        dictSet_append acc kv.1 kv.2 (hfresh kv (by simp))
      simp only [List.foldl_cons, hset]
      rw [ih (acc ++ [(kv.1, kv.2)]) hnodup.2
        (fun q hq => lookup_append_none acc kv.1 kv.2 q.1
          (hfresh q (by simp [hq]))
          (fun heq => hnodup.1 (heq ▸ List.mem_map_of_mem Prod.fst hq)))]
      simp

/-- C8 (counterexample): the rename `A → A__2` collides with a literal
header `A__2`, so the produced header names are not pairwise distinct. -/
theorem dedupe_headers_counterexample :
    _dedupe_headers ["A", "A__2", "A"] = ["A", "A__2", "A__2"] ∧
    ¬ (_dedupe_headers ["A", "A__2", "A"]).Nodup :=
  ⟨by rfl, by decide⟩

/-- C8 (amended): record loading strips leading BOMs from headers and
renames each later duplicate of an earlier (stripped) header by suffixing
`__N` (N = its occurrence count so far); when the stripped headers are
already pairwise distinct, the produced header names are exactly the
stripped headers — pairwise distinct, in original order — and every
produced record (from a row no longer than the header row) has exactly
those keys in that order.  In general a renamed header can collide with a
literal `name__N` header, as the counterexample shows. -/
theorem dedupe_headers_amended (headers row : List String)
    (hnodup : (headers.map stripBOM).Nodup)
    (hrow : row.length ≤ headers.length) :
    _dedupe_headers headers = headers.map stripBOM ∧
    (_dedupe_headers headers).Nodup ∧
    (buildCsvRecord (_dedupe_headers headers) row).map Prod.fst =
      headers.map stripBOM := by
  have hded : _dedupe_headers headers = headers.map stripBOM :=
    dedupeGo_fresh headers [] [] (fun h _ => rfl) hnodup
  refine ⟨hded, hded ▸ hnodup, ?_⟩
  have hkeys : (zipLongestFill (_dedupe_headers headers) row).map Prod.fst =
      headers.map stripBOM := by
    rw [hded]
    exact zipLongest_keys (headers.map stripBOM) row (by simpa using hrow)
  unfold buildCsvRecord
  rw [fold_dictSet_fresh (zipLongestFill (_dedupe_headers headers) row) []
    (by rw [hkeys]; exact hnodup) (fun q _ => rfl)]
  simpa using hkeys

/-- Witness for the amended C8: a BOM-carrying header row with distinct
names and a full data row. -/
theorem dedupe_headers_amended_witness :
    _dedupe_headers ["﻿Title", "SKU"] = ["Title", "SKU"] ∧
    (_dedupe_headers ["﻿Title", "SKU"]).Nodup ∧
    (buildCsvRecord (_dedupe_headers ["﻿Title", "SKU"]) ["a", "b"]).map
      Prod.fst = ["Title", "SKU"] := by
  have h := dedupe_headers_amended ["﻿Title", "SKU"] ["a", "b"]
    (by decide) (by decide)
  exact ⟨by rw [h.1]; rfl, h.2.1, by rw [h.2.2]; rfl⟩

/-- Helper: one variant-sync step never touches the products table. -/
theorem syncVariantStep_products (options : PersistOptions) (product : DBProduct)
    (st : Store × Nat × Nat) (vr : CanonicalVariantV1) :
    ((syncVariantStep options product st vr).1).products = st.1.products := by
  simp only [syncVariantStep]
  repeat' split
  all_goals rfl

/-- Helper: variant syncing never touches the products table. -/
theorem foldl_syncVariantStep_products (options : PersistOptions)
    (product : DBProduct) :
    ∀ (vs : List CanonicalVariantV1) (st : Store × Nat × Nat),
      ((vs.foldl (syncVariantStep options product) st).1).products =
        st.1.products := by
  intro vs
  induction vs with
  | nil => intro st; rfl
  | cons v rest ih =>
      intro st
      rw [List.foldl_cons, ih (syncVariantStep options product st v),
        syncVariantStep_products]

/-- Helper: one image-sync step never touches the products table. -/
theorem syncImageStep_products (product : DBProduct) (st : Store × Nat × Nat)
    (ir : CanonicalImageV1) :
    ((syncImageStep product st ir).1).products = st.1.products := by
  simp only [syncImageStep]
  repeat' split
  all_goals rfl

/-- Helper: image syncing never touches the products table. -/
theorem foldl_syncImageStep_products (product : DBProduct) :
    ∀ (is : List CanonicalImageV1) (st : Store × Nat × Nat),
      ((is.foldl (syncImageStep product) st).1).products = st.1.products := by
  intro is
  induction is with
  | nil => intro st; rfl
  | cons i rest ih =>
      intro st
      rw [List.foldl_cons, ih (syncImageStep product st i),
        syncImageStep_products]

/-- Helper: one metafield-sync step never touches the products table. -/
theorem syncMetafieldStep_products (options : PersistOptions)
    (product : DBProduct) (st : Store × Nat × Nat) (kv : String × PyValue) :
    ((syncMetafieldStep options product st kv).1).products = st.1.products := by
  simp only [syncMetafieldStep]
  repeat' split
  all_goals rfl

/-- Helper: metafield syncing never touches the products table. -/
theorem foldl_syncMetafieldStep_products (options : PersistOptions)
    (product : DBProduct) :
    ∀ (kvs : List (String × PyValue)) (st : Store × Nat × Nat),
      ((kvs.foldl (syncMetafieldStep options product) st).1).products =
        st.1.products := by
  intro kvs
  induction kvs with
  | nil => intro st; rfl
  | cons kv rest ih =>
      intro st
      rw [List.foldl_cons, ih (syncMetafieldStep options product st kv),
        syncMetafieldStep_products]

/-- Helper: on a record whose slugified title is non-empty,
`_get_identifier_value` under `unique_identifier="handle"` is that slug. -/
theorem get_identifier_handle (r : CanonicalProductV1)
    (hslug : slugify (r.basic_info.title.getD "") ≠ "") :
    _get_identifier_value r "handle" =
      some (slugify (r.basic_info.title.getD "")) := by
  unfold _get_identifier_value
  rw [if_neg (by decide), if_pos rfl]
  simp only [if_neg hslug]

/-- Helper: the synthesized handle of the product defaults equals the
slugified title when that slug is non-empty. -/
theorem build_defaults_handle (r : CanonicalProductV1)
    (hslug : slugify (r.basic_info.title.getD "") ≠ "") :
    (_build_product_defaults r).handle =
      slugify (r.basic_info.title.getD "") := by
  simp only [_build_product_defaults]
  rw [if_neg hslug]

/-- Helper: `_sync_variants` never touches the products table. -/
theorem sync_variants_products (store : Store) (product : DBProduct)
    (r : CanonicalProductV1) (options : PersistOptions) :
    (_sync_variants store product r options).1.products = store.products :=
  foldl_syncVariantStep_products options product r.variants (store, 0, 0)

/-- Helper: `_sync_images` never touches the products table. -/
theorem sync_images_products (store : Store) (product : DBProduct)
    (r : CanonicalProductV1) :
    (_sync_images store product r).1.products = store.products :=
  foldl_syncImageStep_products product r.media.images (store, 0, 0)

/-- Helper: `_sync_metafields` never touches the products table. -/
theorem sync_metafields_products (store : Store) (product : DBProduct)
    (r : CanonicalProductV1) (options : PersistOptions) :
    (_sync_metafields store product r options).1.products = store.products :=
  foldl_syncMetafieldStep_products options product r.attributes.values (store, 0, 0)

/-- Helper: when the product upsert succeeds, `_persist_one` succeeds, its
resulting products table is the upsert result's, and exactly one of the
two product counters is bumped according to the created flag. -/
theorem persist_one_shape (store : Store) (r : CanonicalProductV1)
    (options : PersistOptions) (summary : PersistSummary) (store1 : Store)
    (product : DBProduct) (created : Bool)
    (hup : _upsert_product store r options = .ok (store1, product, created)) :
    ∃ stf s1, _persist_one store r options summary = .ok (stf, s1) ∧
      stf.products = store1.products ∧
      s1.products_created = summary.products_created + (if created then 1 else 0) ∧
      s1.products_updated = summary.products_updated + (if created then 0 else 1) := by
  unfold _persist_one
  simp only [hup]
  rcases hsv : _sync_variants store1 product r options with ⟨store2, vc, vu⟩
  rcases hsi : _sync_images store2 product r with ⟨store3, ic, iu⟩
  rcases hsm : _sync_metafields store3 product r options with ⟨store4, mc, mu⟩
  have hp2 : store2.products = store1.products := by
    have := sync_variants_products store1 product r options
    rw [hsv] at this; exact this
  have hp3 : store3.products = store2.products := by
    have := sync_images_products store2 product r
    rw [hsi] at this; exact this
  have hp4 : store4.products = store3.products := by
    have := sync_metafields_products store3 product r options
    rw [hsm] at this; exact this
  simp only [hsv, hsi, hsm]
  by_cases hmf : options.sync_metafields = true
  · rw [if_pos hmf]
    refine ⟨store4, _, rfl, by rw [hp4, hp3, hp2], ?_, ?_⟩ <;>
      cases created <;> simp
  · rw [if_neg hmf]
    refine ⟨store3, _, rfl, by rw [hp3, hp2], ?_, ?_⟩ <;>
      cases created <;> simp

/-- Helper: under `unique_identifier="handle"`, resolution (when the
identifier exists) is a products-table lookup by the handle field. -/
theorem resolve_by_handle (store : Store) (r : CanonicalProductV1)
    (session : Nat) (slug : String)
    (hid2 : _get_identifier_value r "handle" = some slug) :
    _resolve_product store r (optionsHandle session) =
      .ok (store.products.find? (fun p =>
        p.session = session ∧ dbProductField p "handle" = some slug)) := by
  unfold _resolve_product optionsHandle
  simp only [hid2]
  rfl

/-- C7: persisting the same canonical record twice with
`unique_identifier="handle"` against an initially empty store (for any
record whose slugified title is non-empty, so that the identifier
resolves) creates the product once and updates it once:
`products_created` totals 1 and `products_updated` totals 1 across the two
calls, the second call resolves to the product created by the first (same
single row, same id), and no duplicate product is ever created. -/
theorem persist_twice_by_handle (r : CanonicalProductV1) (session : Nat)
    (hslug : slugify (r.basic_info.title.getD "") ≠ "") :
    ∃ s1 st1 s2 st2,
      persist_records [r] (optionsHandle session) {} = .ok (s1, st1) ∧
      persist_records [r] (optionsHandle session) st1 = .ok (s2, st2) ∧
      s1.products_created = 1 ∧ s1.products_updated = 0 ∧
      s2.products_created = 0 ∧ s2.products_updated = 1 ∧
      s1.products_created + s2.products_created = 1 ∧
      s1.products_updated + s2.products_updated = 1 ∧
      st1.products.length = 1 ∧ st2.products.length = 1 ∧
      st2.products.map (fun p => p.id) = st1.products.map (fun p => p.id) := by
  have hid : _get_identifier_value r "handle" =
      some (slugify (r.basic_info.title.getD "")) := get_identifier_handle r hslug
  have hres1 : _resolve_product {} r (optionsHandle session) = .ok Option.none := by
    rw [resolve_by_handle {} r session _ hid]
    rfl
  set p0 : DBProduct :=
    { id := 0, session := session,
      title := (_build_product_defaults r).title,
      body_html := (_build_product_defaults r).body_html,
      vendor := (_build_product_defaults r).vendor,
      product_type := (_build_product_defaults r).product_type,
      tags := (_build_product_defaults r).tags,
      handle := (_build_product_defaults r).handle } with hp0def
  have hupsert1 : _upsert_product {} r (optionsHandle session) =
      .ok ({ products := [p0] }, p0, true) := by
    unfold _upsert_product
    simp only [hres1]
    rfl
  obtain ⟨stf1, s1, hper1, hprod1, hc1, hu1⟩ :=
    persist_one_shape {} r (optionsHandle session) {} { products := [p0] } p0
      true hupsert1
  have hprod1' : stf1.products = [p0] := by simpa using hprod1
  have hcall1 : persist_records [r] (optionsHandle session) {} = .ok (s1, stf1) := by
    unfold persist_records persistRecordsGo
    simp only [hper1]
    rfl
  have hhandle : p0.handle = slugify (r.basic_info.title.getD "") :=
    build_defaults_handle r hslug
  have hres2 : _resolve_product stf1 r (optionsHandle session) = .ok (some p0) := by
    rw [resolve_by_handle stf1 r session _ hid, hprod1']
    simp [List.find?, dbProductField, build_defaults_handle r hslug]
  have hupsert2 : _upsert_product stf1 r (optionsHandle session) =
      .ok ({ products := (stf1.products.map (fun q => if q.id = p0.id then p0 else q)),
             variants := stf1.variants, images := stf1.images,
             metafields := stf1.metafields }, p0, false) := by
    unfold _upsert_product
    simp only [hres2]
    rfl
  obtain ⟨stf2, s2, hper2, hprod2, hc2, hu2⟩ :=
    persist_one_shape stf1 r (optionsHandle session) {}
      { products := (stf1.products.map (fun q => if q.id = p0.id then p0 else q)),
        variants := stf1.variants, images := stf1.images,
        metafields := stf1.metafields } p0 false hupsert2
  have hcall2 : persist_records [r] (optionsHandle session) stf1 = .ok (s2, stf2) := by
    unfold persist_records persistRecordsGo
    simp only [hper2]
    rfl
  have hprod2' : stf2.products = [p0] := by
    rw [hprod2]
    simp only [hprod1']
    simp
  have hs1c : s1.products_created = 1 := by simpa using hc1
  have hs1u : s1.products_updated = 0 := by simpa using hu1
  have hs2c : s2.products_created = 0 := by simpa using hc2
  have hs2u : s2.products_updated = 1 := by simpa using hu2
  refine ⟨s1, stf1, s2, stf2, hcall1, hcall2, hs1c, hs1u, hs2c, hs2u, ?_, ?_,
    ?_, ?_, ?_⟩
  · rw [hs1c, hs2c]
  · rw [hs1u, hs2u]
  · rw [hprod1']; rfl
  · rw [hprod2']; rfl
  · rw [hprod1', hprod2']

/-- Witness for C7: the record `{title="Test", variants=[{sku="SKU-1"}]}`
persisted twice into an empty store for session 5. -/
theorem persist_twice_by_handle_witness :
    ∃ s1 st1 s2 st2,
      persist_records [recC7] (optionsHandle 5) {} = .ok (s1, st1) ∧
      persist_records [recC7] (optionsHandle 5) st1 = .ok (s2, st2) ∧
      s1.products_created = 1 ∧ s1.products_updated = 0 ∧
      s2.products_created = 0 ∧ s2.products_updated = 1 ∧
      s1.products_created + s2.products_created = 1 ∧
      s1.products_updated + s2.products_updated = 1 ∧
      st1.products.length = 1 ∧ st2.products.length = 1 ∧
      st2.products.map (fun p => p.id) = st1.products.map (fun p => p.id) :=
  persist_twice_by_handle recC7 5 (by decide)
